import Mathlib

/-!
Verification development for the jobs.ai ingestion pipeline.

The Python sources are shallowly embedded: Python dict/JSON data is the
inductive type `Value` below (association lists for dicts), fallible Python
operations return `Except PyErr`, and external collaborators (the Gemini
extraction backend, `dateutil.parser.isoparse`, `hashlib.md5`, and the clock)
are oracles collected in an `Env` structure.  `hashlib.sha256`, on which the
deduplication fingerprint rests, is implemented concretely (FIPS 180-4).

Embedding conventions, noted once here:
  * strings are treated as ASCII for `lower`/`strip`/`\w` purposes (every
    concrete input in the repository's tests and in this file is ASCII);
  * Python floats are not represented (no claim depends on float values);
  * datetimes are `Value.dt aware t` with `t` in unix seconds; a naive
    datetime compared against an aware one raises TypeError, as in Python;
  * a Python `None` stored in a dict is `Value.null`; a missing key is a
    missing association-list entry.
-/

namespace JobsAI

/-- Python/JSON runtime values as seen by the pipeline: None, bool, int,
str, datetime, list, dict (insertion-ordered association list). -/
inductive Value where
  | null
  | bool (b : Bool)
  | int (n : Int)
  | str (s : String)
  | dt (aware : Bool) (t : Int)
  | list (xs : List Value)
  | dict (kvs : List (String × Value))

/-- a Python dict with string keys (all dicts in the pipeline are such) -/
abbrev Dict := List (String × Value)

mutual
/-- Python `==` (structural; bool and int compare numerically as in Python;
dict comparison is positional here, which agrees with Python on the
string-vs-string comparisons the pipeline actually performs) -/
def Value.beq : Value → Value → Bool
  | .null, .null => true
  | .bool a, .bool b => a == b
  | .bool a, .int n => (if a then (1 : Int) else 0) == n
  | .int n, .bool a => n == (if a then (1 : Int) else 0)
  | .int a, .int b => a == b
  | .str a, .str b => a == b
  | .dt a t, .dt b u => a == b && t == u
  | .list xs, .list ys => beqList xs ys
  | .dict xs, .dict ys => beqPairs xs ys
  | _, _ => false
def beqList : List Value → List Value → Bool
  | [], [] => true
  | x :: xs, y :: ys => Value.beq x y && beqList xs ys
  | _, _ => false
def beqPairs : List (String × Value) → List (String × Value) → Bool
  | [], [] => true
  | (k, x) :: xs, (l, y) :: ys => k == l && Value.beq x y && beqPairs xs ys
  | _, _ => false
end

instance : BEq Value := ⟨Value.beq⟩

/-- Python truthiness of a value -/
def truthy : Value → Bool
  | .null => false
  | .bool b => b
  | .int n => n != 0
  | .str s => s != ""
  | .dt _ _ => true
  | .list xs => !xs.isEmpty
  | .dict kvs => !kvs.isEmpty

/-- dict lookup, `d[k]` as an Option (first binding; Python dicts have
unique keys) -/
def dget (d : Dict) (k : String) : Option Value :=
  match d with
  | [] => none
  | (k', v) :: rest => if k' = k then some v else dget rest k

/-- Python `d.get(k)`: missing key yields None -/
def dgetV (d : Dict) (k : String) : Value := (dget d k).getD .null

/-- Python `d.get(k, default)` -/
def dgetD (d : Dict) (k : String) (dflt : Value) : Value := (dget d k).getD dflt

/-- Python `k in d` (key containment) -/
def dhas (d : Dict) (k : String) : Bool := (dget d k).isSome

/-- Python `d[k] = v`: replace in place if the key exists, else append
(insertion order preserved, as for Python dicts) -/
def dset (d : Dict) (k : String) (v : Value) : Dict :=
  if (dget d k).isSome then d.map (fun p => if p.1 = k then (k, v) else p)
  else d ++ [(k, v)]

/-- exception tags for the fallible Python operations the pipeline performs -/
inductive PyErr where
  | attributeError
  | typeError
  | valueError
  | keyError
  | dbError
deriving DecidableEq

-- ---------------------------------------------------------------------------
-- Python string primitives (ASCII semantics)
-- ---------------------------------------------------------------------------

/-- Python `\w` / `str.isalnum`-style word character (ASCII fragment) -/
def isWordChar (c : Char) : Bool :=
  (97 ≤ c.toNat && c.toNat ≤ 122) || (65 ≤ c.toNat && c.toNat ≤ 90) ||
  (48 ≤ c.toNat && c.toNat ≤ 57) || c = '_'

/-- ASCII whitespace stripped by Python `str.strip()` -/
def isPySpace (c : Char) : Bool :=
  c = ' ' || c = '\t' || c = '\n' || c.toNat = 13 || c.toNat = 11 || c.toNat = 12

/-- Python `str.lower()` (ASCII fragment) -/
def pyLower (s : String) : String :=
  ⟨s.toList.map (fun c =>
    if 65 ≤ c.toNat && c.toNat ≤ 90 then Char.ofNat (c.toNat + 32) else c)⟩

/-- Python `str.upper()` (ASCII fragment) -/
def pyUpper (s : String) : String :=
  ⟨s.toList.map (fun c =>
    if 97 ≤ c.toNat && c.toNat ≤ 122 then Char.ofNat (c.toNat - 32) else c)⟩

/-- Python `str.strip()` -/
def pyStrip (s : String) : String :=
  ⟨(s.toList.dropWhile isPySpace).reverse.dropWhile isPySpace |>.reverse⟩

/-- Python substring containment `sub in s` -/
def strContains (s sub : String) : Bool :=
  let cs := s.toList
  let ss := sub.toList
  (List.range (cs.length + 1)).any (fun i => ss.isPrefixOf (cs.drop i))

/-- Python `int(str)`: optional surrounding whitespace and sign, decimal
digits (Python's digit-group underscores are not modelled) -/
def strToInt? (s : String) : Option Int :=
  let t := pyStrip s
  let core := t.toList
  let (sign, digits) :=
    match core with
    | '-' :: rest => ((-1 : Int), rest)
    | '+' :: rest => ((1 : Int), rest)
    | rest => ((1 : Int), rest)
  if digits.isEmpty || !digits.all (fun c => 48 ≤ c.toNat && c.toNat ≤ 57) then none
  else some (sign * (digits.foldl (fun acc c => acc * 10 + ((c.toNat : Int) - 48)) (0 : Int)))

/-- Python `int(value)` for the value shapes that convert (None/str-garbage
give ValueError/TypeError, i.e. `none` here) -/
def toInt? : Value → Option Int
  | .int n => some n
  | .bool b => some (if b then 1 else 0)
  | .str s => strToInt? s
  | _ => none

-- ---------------------------------------------------------------------------
-- date rendering (Python str(datetime)) — needed for json.dumps(default=str)
-- ---------------------------------------------------------------------------

/-- civil date from days since the unix epoch (Hinnant's algorithm,
floor divisions) -/
def civilFromDays (z0 : Int) : Int × Int × Int :=
  let z := z0 + 719468
  let era := z.fdiv 146097
  let doe := z - era * 146097
  let yoe := (doe - doe.fdiv 1460 + doe.fdiv 36524 - doe.fdiv 146096).fdiv 365
  let y := yoe + era * 400
  let doy := doe - (365 * yoe + yoe.fdiv 4 - yoe.fdiv 100)
  let mp := (5 * doy + 2).fdiv 153
  let d := doy - (153 * mp + 2).fdiv 5 + 1
  let m := mp + (if mp < 10 then 3 else -9)
  (y + (if m ≤ 2 then 1 else 0), m, d)

/-- left-pad a numeral with zeros -/
def padNum (width : Nat) (n : Int) : String :=
  let s := toString n.natAbs
  let pad := String.mk (List.replicate (width - s.length) '0')
  (if n < 0 then "-" else "") ++ pad ++ s

/-- Python `str()` of a pipeline datetime (microseconds are zero in every
datetime the pipeline constructs) -/
def strOfDt (aware : Bool) (t : Int) : String :=
  let days := t.fdiv 86400
  let secs := (t - days * 86400).toNat
  let (y, m, d) := civilFromDays days
  padNum 4 y ++ "-" ++ padNum 2 m ++ "-" ++ padNum 2 d ++ " " ++
    padNum 2 (secs / 3600) ++ ":" ++ padNum 2 (secs / 60 % 60) ++ ":" ++
    padNum 2 (secs % 60) ++ (if aware then "+00:00" else "")

mutual
/-- Python `str(value)` (list/dict use `repr`; `repr` of a string is rendered
with plain single quotes — escaping inside reprs is not modelled, and no
claim depends on it) -/
def pyStr : Value → String
  | .null => "None"
  | .bool b => if b then "True" else "False"
  | .int n => toString n
  | .str s => s
  | .dt aware t => strOfDt aware t
  | .list xs => "[" ++ String.intercalate ", " (pyReprList xs) ++ "]"
  | .dict kvs => "\x7b" ++ String.intercalate ", " (pyReprPairs kvs) ++ "\x7d"
def pyReprList : List Value → List String
  | [] => []
  | .str s :: xs => ("\x27" ++ s ++ "\x27") :: pyReprList xs
  | x :: xs => pyStr x :: pyReprList xs
def pyReprPairs : List (String × Value) → List String
  | [] => []
  | (k, .str s) :: xs => ("\x27" ++ k ++ "\x27: \x27" ++ s ++ "\x27") :: pyReprPairs xs
  | (k, v) :: xs => ("\x27" ++ k ++ "\x27: " ++ pyStr v) :: pyReprPairs xs
end

/-- JSON string escaping (quote, backslash, newline; other control characters
do not occur in the data this development evaluates) -/
def jsonEscape (s : String) : String :=
  ⟨s.toList.foldr (fun c acc =>
    if c = '"' then '\\' :: '"' :: acc
    else if c = '\\' then '\\' :: '\\' :: acc
    else if c = '\n' then '\\' :: 'n' :: acc
    else c :: acc) []⟩

mutual
/-- Python `json.dumps(value, default=str, ensure_ascii=False)` -/
def jsonDumps : Value → String
  | .null => "null"
  | .bool b => if b then "true" else "false"
  | .int n => toString n
  | .str s => "\"" ++ jsonEscape s ++ "\""
  | .dt aware t => "\"" ++ jsonEscape (strOfDt aware t) ++ "\""
  | .list xs => "[" ++ String.intercalate ", " (jsonDumpsList xs) ++ "]"
  | .dict kvs => "\x7b" ++ String.intercalate ", " (jsonDumpsPairs kvs) ++ "\x7d"
def jsonDumpsList : List Value → List String
  | [] => []
  | x :: xs => jsonDumps x :: jsonDumpsList xs
def jsonDumpsPairs : List (String × Value) → List String
  | [] => []
  | (k, v) :: xs => ("\"" ++ jsonEscape k ++ "\": " ++ jsonDumps v) :: jsonDumpsPairs xs
end

mutual
/-- Python `json.loads(json.dumps(value, default=str))`: the identity except
that datetimes collapse to their `str()` rendering -/
def jsonRoundTrip : Value → Value
  | .dt aware t => .str (strOfDt aware t)
  | .list xs => .list (jsonRoundTripList xs)
  | .dict kvs => .dict (jsonRoundTripPairs kvs)
  | v => v
def jsonRoundTripList : List Value → List Value
  | [] => []
  | x :: xs => jsonRoundTrip x :: jsonRoundTripList xs
def jsonRoundTripPairs : List (String × Value) → List (String × Value)
  | [] => []
  | (k, v) :: xs => (k, jsonRoundTrip v) :: jsonRoundTripPairs xs
end

-- ---------------------------------------------------------------------------
-- fallible Python operations
-- ---------------------------------------------------------------------------

/-- Python `value.lower()` / any str-method access: AttributeError unless the
value is a str -/
def asStrE : Value → Except PyErr String
  | .str s => .ok s
  | _ => .error .attributeError

/-- Python `len(value)` (str length is in code points, as in Python) -/
def pyLenE : Value → Except PyErr Int
  | .str s => .ok s.length
  | .list xs => .ok xs.length
  | .dict kvs => .ok kvs.length
  | _ => .error .typeError

/-- Python `a + b` for the shapes the pipeline adds -/
def pyAdd : Value → Value → Except PyErr Value
  | .str a, .str b => .ok (.str (a ++ b))
  | .int a, .int b => .ok (.int (a + b))
  | .int a, .bool b => .ok (.int (a + if b then 1 else 0))
  | .bool a, .int b => .ok (.int ((if a then 1 else 0) + b))
  | .bool a, .bool b => .ok (.int ((if a then 1 else 0) + if b then 1 else 0))
  | .list a, .list b => .ok (.list (a ++ b))
  | _, _ => .error .typeError

/-- Python `x in container` for str/list/dict containers -/
def pyIn (x : Value) (container : Value) : Except PyErr Bool
  :=
  match container with
  | .list xs => .ok (xs.any (fun y => Value.beq x y))
  | .str s =>
    match x with
    | .str sub => .ok (strContains s sub)
    | _ => .error .typeError
  | .dict kvs =>
    match x with
    | .str k => .ok (kvs.any (fun p => p.1 = k))
    | _ => .ok false
  | _ => .error .typeError

/-- Python `a or b` (value-returning) -/
def orV (a b : Value) : Value := if truthy a then a else b

/-- Python chained `a or b or ... or z` (first truthy, else the last) -/
def orChain : List Value → Value
  | [] => .null
  | [x] => x
  | x :: xs => if truthy x then x else orChain xs

-- ---------------------------------------------------------------------------
-- hashlib.sha256 (FIPS 180-4), for the title+company fingerprint
-- ---------------------------------------------------------------------------

/-- 2^32, the word modulus -/
def M32 : Nat := 4294967296

/-- rotate a 32-bit word right by n -/
def rotr (n x : Nat) : Nat := ((x >>> n) ||| (x <<< (32 - n))) % M32

/-- SHA-256 round constants -/
def shaK : List Nat := [
  1116352408, 1899447441, 3049323471, 3921009573, 961987163, 1508970993,
  2453635748, 2870763221, 3624381080, 310598401, 607225278, 1426881987,
  1925078388, 2162078206, 2614888103, 3248222580, 3835390401, 4022224774,
  264347078, 604807628, 770255983, 1249150122, 1555081692, 1996064986,
  2554220882, 2821834349, 2952996808, 3210313671, 3336571891, 3584528711,
  113926993, 338241895, 666307205, 773529912, 1294757372, 1396182291,
  1695183700, 1986661051, 2177026350, 2456956037, 2730485921, 2820302411,
  3259730800, 3345764771, 3516065817, 3600352804, 4094571909, 275423344,
  430227734, 506948616, 659060556, 883997877, 958139571, 1322822218,
  1537002063, 1747873779, 1955562222, 2024104815, 2227730452, 2361852424,
  2428436474, 2756734187, 3204031479, 3329325298]

/-- SHA-256 initial hash state -/
def shaH0 : List Nat :=
  [1779033703, 3144134277, 1013904242, 2773480762,
   1359893119, 2600822924, 528734635, 1541459225]

/-- message padding to a multiple of 64 bytes with the 64-bit length -/
def shaPad (msg : List Nat) : List Nat :=
  let L := msg.length
  let k := (55 + 64 - L % 64) % 64
  msg ++ [0x80] ++ List.replicate k 0 ++
    (List.range 8).map (fun i => ((8 * L) >>> (8 * (7 - i))) % 256)

/-- padded message as 16-word big-endian blocks -/
def shaBlocks (padded : List Nat) : List (List Nat) :=
  (padded.toChunks 64).map (fun block =>
    (block.toChunks 4).map (fun b4 => b4.foldl (fun acc b => acc * 256 + b) 0))

/-- extend a 16-word block to the 64-word message schedule -/
def shaExtend (block : List Nat) : List Nat :=
  let step := fun (w : Array Nat) (i : Nat) =>
    let g := fun j => w.getD j 0
    let s0 := (rotr 7 (g (i-15))) ^^^ (rotr 18 (g (i-15))) ^^^ ((g (i-15)) >>> 3)
    let s1 := (rotr 17 (g (i-2))) ^^^ (rotr 19 (g (i-2))) ^^^ ((g (i-2)) >>> 10)
    w.push ((g (i-16) + s0 + g (i-7) + s1) % M32)
  ((List.range 48).foldl (fun w j => step w (16 + j)) block.toArray).toList

/-- one SHA-256 compression round over a block -/
def shaCompress (h : List Nat) (block : List Nat) : List Nat :=
  let w := shaExtend block
  let g := fun (l : List Nat) (j : Nat) => l.getD j 0
  let final := (List.range 64).foldl (fun (v : List Nat) i =>
    let a := g v 0; let b := g v 1; let c := g v 2; let d := g v 3
    let e := g v 4; let f := g v 5; let gg := g v 6; let hh := g v 7
    let S1 := (rotr 6 e) ^^^ (rotr 11 e) ^^^ (rotr 25 e)
    let ch := (e &&& f) ^^^ ((M32 - 1 - e) &&& gg)
    let t1 := (hh + S1 + ch + g shaK i + g w i) % M32
    let S0 := (rotr 2 a) ^^^ (rotr 13 a) ^^^ (rotr 22 a)
    let mj := (a &&& b) ^^^ (a &&& c) ^^^ (b &&& c)
    let t2 := (S0 + mj) % M32
    [(t1 + t2) % M32, a, b, c, (d + t1) % M32, e, f, gg]) h
  (h.zip final).map (fun p => (p.1 + p.2) % M32)

/-- SHA-256 digest as eight 32-bit words -/
def sha256Words (msg : List Nat) : List Nat :=
  (shaBlocks (shaPad msg)).foldl shaCompress shaH0

/-- a nibble as a lowercase hex character -/
def hexDigit (n : Nat) : Char :=
  if n < 10 then Char.ofNat (48 + n) else Char.ofNat (87 + n)

/-- 32-bit word as eight hex characters -/
def wordHex (w : Nat) : List Char :=
  (List.range 8).map (fun i => hexDigit ((w >>> (4 * (7 - i))) % 16))

/-- hashlib.sha256(msg).hexdigest() -/
def sha256hex (msg : List Nat) : String :=
  ⟨(sha256Words msg).foldr (fun w acc => wordHex w ++ acc) []⟩

/-- UTF-8 encoding of one code point (Python `str.encode()`) -/
def utf8Bytes (c : Nat) : List Nat :=
  if c < 0x80 then [c]
  else if c < 0x800 then [0xC0 ||| (c >>> 6), 0x80 ||| (c &&& 0x3F)]
  else if c < 0x10000 then
    [0xE0 ||| (c >>> 12), 0x80 ||| ((c >>> 6) &&& 0x3F), 0x80 ||| (c &&& 0x3F)]
  else
    [0xF0 ||| (c >>> 18), 0x80 ||| ((c >>> 12) &&& 0x3F),
     0x80 ||| ((c >>> 6) &&& 0x3F), 0x80 ||| (c &&& 0x3F)]

/-- Python `s.encode()` as a byte list -/
def strBytes (s : String) : List Nat := (s.toList.map (fun c => utf8Bytes c.toNat)).flatten

/-- the dedup fingerprint:
`hashlib.sha256(f"{title.lower().strip()}_{company.lower().strip()}".encode()).hexdigest()[:16]`.
This exact formula appears twice in the sources, in
`EnrichmentPipeline._finalize_job` and in `Database._hash_title_company`;
it is defined once here. -/
def hash_title_company (title company : String) : String :=
  (sha256hex (strBytes (pyStrip (pyLower title) ++ "_" ++ pyStrip (pyLower company)))).take 16

-- ---------------------------------------------------------------------------
-- the environment of external collaborators
-- ---------------------------------------------------------------------------

/-- External collaborators of the pipeline, abstracted as oracles:
the clock, `dateutil.parser.isoparse` (none = parse failure; otherwise the
awareness flag and timestamp of the parsed datetime), `hashlib.md5`'s
truncated hexdigest (reached only by the degraded source-id branch),
the Gemini extraction call (prompt to parsed-JSON value; `.error` covers
both a network/timeout failure and a non-JSON response, which raise at the
same program point), and whether AI enrichment is enabled
(`settings.enable_ai_enrichment` together with `AIProcessor.enabled`). -/
structure Env where
  now : Int
  isoparse : String → Option (Bool × Int)
  md5hex16 : String → String
  gemini : String → Except Unit Value
  ai_enabled : Bool

/-- EnrichmentPipeline._parse_epoch -/
def parse_epoch (v : Value) : Value :=
  if !truthy v then .null
  else
    match toInt? v with
    | some n => .dt true n
    | none => .null

/-- EnrichmentPipeline._parse_iso (a naive parsed/stored datetime gets UTC
attached via `replace(tzinfo=timezone.utc)` only in the isinstance branch;
the dateutil result is returned as parsed) -/
def parse_iso (env : Env) (v : Value) : Value :=
  if !truthy v then .null
  else
    match v with
    | .dt _ t => .dt true t
    | _ =>
      match env.isoparse (pyStr v) with
      | some (aware, t) => .dt aware t
      | none => .null

/-- EnrichmentPipeline._parse_posted_at (datetime, int/float epoch — a bool
counts as an int in Python — or parseable string) -/
def parse_posted_at (env : Env) (v : Value) : Value :=
  if !truthy v then .null
  else
    match v with
    | .dt _ t => .dt true t
    | .int n => .dt true n
    | .bool b => .dt true (if b then 1 else 0)
    | _ =>
      match env.isoparse (pyStr v) with
      | some (aware, t) => .dt aware t
      | none => .null

/-- EnrichmentPipeline._to_str / Database._to_str (identical behavior:
None stays None, anything else is stringified) -/
def to_str (v : Value) : Value :=
  match v with
  | .null => .null
  | _ => .str (pyStr v)

-- ---------------------------------------------------------------------------
-- QualityScorer
-- ---------------------------------------------------------------------------

namespace QualityScorer

/-- QualityScorer.score: weighted additive completeness score, capped at 100.
`len()` on a truthy non-sized value raises TypeError, hence the Except. -/
def score (job : Dict) : Except PyErr Int := do
  let description := dgetD job "description" (.str "")
  let s1 ←
    if truthy description then do
      let l ← pyLenE description
      pure (if l > 2000 then (25 : Int) else if l > 1000 then 20 else
            if l > 500 then 15 else if l > 200 then 10 else 5)
    else pure 0
  let salaryMin := dgetV job "salary_min"
  let salaryMax := dgetV job "salary_max"
  let s2 : Int :=
    if truthy salaryMin && truthy salaryMax then 25
    else if truthy salaryMin || truthy salaryMax then 15 else 0
  let location := dgetD job "location" (.dict [])
  let s3 : Int :=
    match location with
    | .dict kvs =>
      (if truthy (dgetV kvs "city") then 5 else 0) +
      (if truthy (dgetV kvs "country") then 5 else 0) +
      (if dhas kvs "remote" then 10 else 0)
    | _ => 0
  let company := dgetD job "company" (.str "")
  let s4 ←
    if truthy company then do
      let l ← pyLenE company
      pure (if l > 2 then (15 : Int) else 0)
    else pure (0 : Int)
  let s5 : Int := if truthy (dgetV job "employment_type") then 10 else 0
  let s6 : Int := if truthy (dgetV job "apply_url") then 5 else 0
  pure (min (s1 + s2 + s3 + s4 + s5 + s6) 100)

end QualityScorer

-- ---------------------------------------------------------------------------
-- SkillsExtractor
-- ---------------------------------------------------------------------------

namespace SkillsExtractor

/-- one token of a regex alternative: a literal character or an optional
literal character (`s?`, `\.?`) -/
inductive PTok where
  | lit (c : Char)
  | opt (c : Char)

/-- compile one alternative, written with the source's own spelling minus
backslash-escapes: a trailing `?` makes the previous character optional -/
def mkPat (s : String) : List PTok :=
  let rec go : List Char → List PTok
    | [] => []
    | c :: '?' :: rest => .opt c :: go rest
    | c :: rest => .lit c :: go rest
  go s.toList

/-- TECH_PATTERNS: each `\b(?:alt|alt|...)\b` pattern as its list of
alternatives (escapes `\.` `\+` unescaped; `?` quantifiers kept) -/
def tech_patterns : List (String × List (List PTok)) :=
  let p := fun (name : String) (alts : List String) => (name, alts.map mkPat)
  [ p "python" ["python", "django", "flask", "fastapi", "pandas", "numpy"],
    p "javascript" ["javascript", "js", "typescript", "ts", "node.?js", "deno"],
    p "java" ["java", "spring", "springboot", "hibernate"],
    p "golang" ["go", "golang"],
    p "rust" ["rust", "cargo"],
    p "ruby" ["ruby", "rails", "ruby on rails"],
    p "php" ["php", "laravel", "symfony", "wordpress"],
    p "c++" ["c++", "cpp"],
    p "c#" ["c#", "csharp", ".net", "dotnet"],
    p "swift" ["swift", "swiftui"],
    p "kotlin" ["kotlin"],
    p "scala" ["scala", "akka"],
    p "react" ["react", "reactjs", "react.js", "nextjs", "next.js"],
    p "vue" ["vue", "vuejs", "vue.js", "nuxt"],
    p "angular" ["angular", "angularjs"],
    p "svelte" ["svelte", "sveltekit"],
    p "express" ["express", "expressjs", "express.js"],
    p "nestjs" ["nestjs", "nest.js"],
    p "postgresql" ["postgres", "postgresql", "psql"],
    p "mysql" ["mysql", "mariadb"],
    p "mongodb" ["mongodb", "mongo"],
    p "redis" ["redis", "valkey"],
    p "elasticsearch" ["elasticsearch", "elastic", "elk"],
    p "cassandra" ["cassandra"],
    p "dynamodb" ["dynamodb"],
    p "aws" ["aws", "amazon web services", "ec2", "s3", "lambda", "rds", "ecs", "eks"],
    p "gcp" ["gcp", "google cloud", "gke", "bigquery"],
    p "azure" ["azure", "microsoft azure"],
    p "digitalocean" ["digitalocean", "do"],
    p "docker" ["docker", "dockerfile", "containers?"],
    p "kubernetes" ["kubernetes", "k8s", "kubectl", "helm"],
    p "terraform" ["terraform", "tf"],
    p "ansible" ["ansible"],
    p "jenkins" ["jenkins"],
    p "github actions" ["github actions", "gh actions"],
    p "gitlab ci" ["gitlab ci", "gitlab"],
    p "circleci" ["circleci", "circle ci"],
    p "prometheus" ["prometheus"],
    p "grafana" ["grafana"],
    p "datadog" ["datadog"],
    p "newrelic" ["new relic", "newrelic"],
    p "kafka" ["kafka", "apache kafka"],
    p "rabbitmq" ["rabbitmq", "rabbit mq"],
    p "sqs" ["sqs", "amazon sqs"],
    p "pytest" ["pytest"],
    p "jest" ["jest"],
    p "cypress" ["cypress"],
    p "selenium" ["selenium"],
    p "git" ["git", "github", "gitlab", "bitbucket"],
    p "ci/cd" ["ci/cd", "cicd", "continuous integration", "continuous deployment"],
    p "agile" ["agile", "scrum", "kanban"],
    p "microservices" ["microservices?", "micro-services?"],
    p "rest api" ["rest", "restful", "rest api"],
    p "graphql" ["graphql", "gql"] ]

/-- match the tokens of an alternative starting at position i, returning
every end position (backtracks through optional characters) -/
def matchEnds : List PTok → List Char → Nat → List Nat
  | [], _, i => [i]
  | .lit c :: ts, s, i =>
    if s.get? i = some c then matchEnds ts s (i + 1) else []
  | .opt c :: ts, s, i =>
    (if s.get? i = some c then matchEnds ts s (i + 1) else []) ++ matchEnds ts s i

/-- is the character at position i a word character (out-of-range counts as
non-word, matching Python's `\b` at the string edges) -/
def wordAt (s : List Char) (i : Nat) : Bool :=
  match s.get? i with
  | some c => isWordChar c
  | none => false

/-- Python `\b` at position i: word-ness changes between the two sides -/
def boundaryAt (s : List Char) (i : Nat) : Bool :=
  (if i = 0 then false else wordAt s (i - 1)) != wordAt s i

/-- re.search of one `\b(?:alt|...)\b` pattern over the text -/
def patSearch (alts : List (List PTok)) (text : String) : Bool :=
  let s := text.toList
  (List.range (s.length + 1)).any (fun i =>
    boundaryAt s i &&
      alts.any (fun alt => (matchEnds alt s i).any (fun j => boundaryAt s j)))

/-- stable insertion into an ascending list (helper for Python `sorted`) -/
def insertSorted (x : String) : List String → List String
  | [] => [x]
  | y :: ys => if x ≤ y then x :: y :: ys else y :: insertSorted x ys

/-- Python `sorted` over strings (stable, ascending by code points) -/
def pySorted (l : List String) : List String := l.foldr insertSorted []

/-- SkillsExtractor.extract: names of all matching patterns, sorted.  The
f-string stringifies non-str arguments, so this function is total; pattern
names are unique in the table, so Python's set() dedup is a no-op. -/
def extract (title description : Value) : List String :=
  let text := pyLower (pyStr title ++ " " ++ pyStr description)
  pySorted ((tech_patterns.filter (fun pat => patSearch pat.2 text)).map (fun pat => pat.1))

/-- the non-technical title keywords of categorize_role -/
def non_technical_keywords : List String :=
  ["sales", "account executive", "account manager", "business development",
   "marketing", "recruiter", "recruiting", "hr ", "human resources",
   "operations", "finance", "legal", "compliance", "customer success",
   "support", "content", "copywriter",
   "product manager", "product owner", "project manager", "program manager",
   "analyst", "business analyst", "data analyst"]

/-- count of true indicators (Python `sum` over a list of bools) -/
def boolSum (l : List Bool) : Int := l.foldl (fun acc b => acc + if b then 1 else 0) 0

/-- SkillsExtractor.categorize_role.  `title.lower()` raises on a non-str
title and `x in skills` raises on a non-container skills value, hence the
Except.  Ties keep Python's insertion order (frontend first). -/
def categorize_role (title description skills : Value) : Except PyErr String := do
  let text := pyLower (pyStr title ++ " " ++ pyStr description)
  let titleStr ← asStrE title
  let titleLower := pyLower titleStr
  let isEngineeringManager :=
    strContains titleLower "engineering manager" || strContains titleLower "eng manager"
  if !isEngineeringManager && non_technical_keywords.any (fun k => strContains titleLower k) then
    pure "general"
  else if (["designer", "ux", "ui", "design lead"].any (fun k => strContains titleLower k)) &&
      !strContains titleLower "engineer" && !strContains titleLower "developer" then
    pure "general"
  else do
    let inSkills := fun (name : String) => pyIn (.str name) skills
    let hasReact ← inSkills "react"
    let hasVue ← inSkills "vue"
    let hasAngular ← inSkills "angular"
    let frontendScore := boolSum [
      hasReact || hasVue || hasAngular,
      strContains text "frontend" || strContains text "front-end",
      strContains text "ui" || strContains text "ux",
      strContains text "css" || strContains text "html"]
    let hasPg ← inSkills "postgresql"
    let hasMy ← inSkills "mysql"
    let hasMongo ← inSkills "mongodb"
    let hasPy ← inSkills "python"
    let hasJava ← inSkills "java"
    let hasGo ← inSkills "golang"
    let hasRuby ← inSkills "ruby"
    let backendScore := boolSum [
      strContains text "backend" || strContains text "back-end",
      strContains text "api",
      hasPg || hasMy || hasMongo,
      hasPy || hasJava || hasGo || hasRuby]
    let hasDocker ← inSkills "docker"
    let hasK8s ← inSkills "kubernetes"
    let hasTf ← inSkills "terraform"
    let hasAnsible ← inSkills "ansible"
    let hasCicd ← inSkills "ci/cd"
    let hasAws ← inSkills "aws"
    let hasGcp ← inSkills "gcp"
    let hasAzure ← inSkills "azure"
    let devopsScore := boolSum [
      strContains text "devops" || strContains text "sre",
      hasDocker || hasK8s,
      hasTf || hasAnsible,
      hasCicd,
      hasAws || hasGcp || hasAzure]
    let dataScore := boolSum [
      strContains text "data engineer" || strContains text "data scientist",
      strContains text "spark" || strContains text "airflow",
      strContains text "etl" || strContains text "pipeline",
      strContains text "bigquery" || strContains text "redshift"]
    let mlScore := boolSum [
      strContains text "machine learning" || strContains text "ml",
      strContains text "ai" || strContains text "artificial intelligence",
      strContains text "pytorch" || strContains text "tensorflow",
      strContains text "nlp" || strContains text "computer vision"]
    let scores : List (String × Int) := [
      ("frontend", frontendScore), ("backend", backendScore),
      ("devops", devopsScore), ("data", dataScore), ("ml", mlScore)]
    let maxScore := (scores.map (fun p => p.2)).foldl max 0
    if maxScore = 0 then pure "general"
    else if backendScore ≥ 2 && frontendScore ≥ 2 then pure "fullstack"
    else
      match scores.find? (fun p => p.2 = maxScore) with
      | some p => pure p.1
      | none => pure "general"

end SkillsExtractor

-- ---------------------------------------------------------------------------
-- EnrichmentPipeline
-- ---------------------------------------------------------------------------

namespace EnrichmentPipeline

/-- jobs older than this are dropped during ingestion (MAX_JOB_AGE_DAYS) -/
def MAX_JOB_AGE_DAYS : Int := 15

/-- EnrichmentPipeline._derive_source_id: first truthy identity key,
stringified; otherwise the degraded md5 branch over
`json.dumps(raw.get("title","") + raw.get("company",""), default=str)`
(the `+` raises TypeError for mixed operand types, which propagates). -/
def derive_source_id (env : Env) (_source : String) (raw : Dict) : Except PyErr String := do
  let keys := ["id", "job_id", "source_id", "hn_comment_id", "entry_id"]
  match keys.find? (fun k => truthy (dgetV raw k)) with
  | some k => pure (pyStr (dgetV raw k))
  | none => do
    let sum ← pyAdd (dgetD raw "title" (.str "")) (dgetD raw "company" (.str ""))
    pure ((env.md5hex16 (jsonDumps sum)).take 16)

/-- the raw-record URL fields probed for source_url / apply_url backfill -/
def rawUrlChain (raw : Dict) : List Value :=
  [dgetV raw "apply_url", dgetV raw "url", dgetV raw "link",
   dgetV raw "job_apply_link", dgetV raw "redirect_url"]

/-- the tail of _finalize_job after deadline parsing: company default,
quality score, dedup hash, legacy location blob, apply_url backfill -/
def finalize_rest2 (env : Env) (raw_job : Dict) (job7 : Dict) :
    Except PyErr (Option Dict) := do
  let job8 := if truthy (dgetV job7 "company") then job7 else dset job7 "company" (.str "Unknown")
  let qs ← QualityScorer.score job8
  let job9 := dset job8 "quality_score" (.int qs)
  let title ← asStrE (dgetD job9 "title" (.str ""))
  let company ← asStrE (dgetD job9 "company" (.str ""))
  let job10 := dset job9 "title_company_hash" (.str (hash_title_company title company))
  let job11 := dset job10 "location" (.dict
    [("city", dgetV job10 "city"), ("country", dgetV job10 "country"),
     ("remote", dgetD job10 "is_remote" (.bool false))])
  let job12 :=
    if truthy (dgetV job11 "apply_url") then job11
    else dset job11 "apply_url"
      (orChain (rawUrlChain raw_job ++ [dgetV job11 "source_url", .str "https://unknown"]))
  pure (some job12)

/-- the tail of _finalize_job after the age filter: parse a textual
application_deadline, then the `finalize_rest2` steps -/
def finalize_rest (env : Env) (raw_job : Dict) (job6 : Dict) :
    Except PyErr (Option Dict) :=
  finalize_rest2 env raw_job
    (match dgetV job6 "application_deadline" with
     | .str s => dset job6 "application_deadline" (parse_iso env (.str s))
     | _ => job6)

/-- the identity/raw_data/source_url prefix of _finalize_job (steps between
the copy and the posted_at default): source, source_id, id, raw_data, and
the source_url backfill from the raw record -/
def finalize_pre (source : String) (raw_job : Dict) (sid : String) (job0 : Dict) : Dict :=
  let job1 := dset job0 "source" (.str source)
  let job2 := dset job1 "source_id" (.str sid)
  let job3 := dset job2 "id" (.str (source ++ "_" ++ sid))
  let job4 := dset job3 "raw_data" (jsonRoundTrip (.dict raw_job))
  if truthy (dgetV job4 "source_url") then job4
  else dset job4 "source_url" (orChain (rawUrlChain raw_job))

/-- EnrichmentPipeline._finalize_job.  The extracted payload is copied
(`extracted.copy()` raises AttributeError on a non-dict payload, e.g. a
string the extraction backend returned), system fields are added
(`finalize_pre`), an absent/falsy posted_at defaults to now, and the record
is dropped (`none`) when its aware posted_at datetime is older than the
15-day window; comparing a naive datetime against the aware cutoff raises
TypeError, as in Python.  The remaining steps are `finalize_rest`. -/
def finalize_job (env : Env) (source : String) (raw_job : Dict) (extracted : Value) :
    Except PyErr (Option Dict) := do
  let job0 ←
    match extracted with
    | .dict kvs => pure kvs
    | _ => Except.error .attributeError
  let sid ← derive_source_id env source raw_job
  let job5 := finalize_pre source raw_job sid job0
  let job6 :=
    if truthy (dgetV job5 "posted_at") then job5
    else dset job5 "posted_at" (.dt true env.now)
  let cutoff := env.now - MAX_JOB_AGE_DAYS * 86400
  match dgetV job6 "posted_at" with
  | .dt true t => if t < cutoff then pure none else finalize_rest env raw_job job6
  | .dt false _ => Except.error .typeError
  | _ => finalize_rest env raw_job job6

/-- the per-source field mapping of _fallback_extract (the body of the big
`if source == ...` chain, up to and excluding the required-field check);
`none` is the unknown-source branch.  Entries are evaluated in the source's
order, so the first fallible entry to raise determines the error. -/
def source_extract (env : Env) (source : String) (raw : Dict) :
    Except PyErr (Option Dict) := do
  if source = "remoteok" then do
    let employmentType ← asStrE (orV (dgetV raw "type") (.str "FULLTIME"))
    pure (some [
      ("title", orV (dgetV raw "position") (dgetD raw "title" (.str ""))),
      ("company", dgetD raw "company" (.str "Unknown")),
      ("company_logo", orV (dgetV raw "company_logo") (dgetV raw "logo")),
      ("description", dgetD raw "description" (.str "")),
      ("is_remote", .bool true),
      ("work_arrangement", .str "remote"),
      ("country", dgetV raw "location"),
      ("employment_type", .str (pyUpper employmentType)),
      ("salary_min", to_str (dgetV raw "salary_min")),
      ("salary_max", to_str (dgetV raw "salary_max")),
      ("salary_currency", dgetD raw "salary_currency" (.str "USD")),
      ("apply_url", dgetD raw "url" (.str "")),
      ("posted_at", parse_epoch (dgetV raw "epoch")),
      ("tags", dgetD raw "tags" (.list [])),
      ("skills", dgetD raw "tags" (.list []))])
  else if source = "jsearch" then do
    let employmentType ← asStrE (orV (dgetV raw "job_employment_type") (.str "FULLTIME"))
    let salaryPeriod ← asStrE (dgetD raw "job_salary_period" (.str ""))
    let expYears ← extract_years (dgetV raw "job_required_experience")
    pure (some [
      ("title", dgetD raw "job_title" (.str "")),
      ("company", dgetD raw "employer_name" (.str "Unknown")),
      ("company_logo", dgetV raw "employer_logo"),
      ("company_website", dgetV raw "employer_website"),
      ("description", dgetD raw "job_description" (.str "")),
      ("city", dgetV raw "job_city"),
      ("country", dgetV raw "job_country"),
      ("is_remote", dgetD raw "job_is_remote" (.bool false)),
      ("work_arrangement",
        .str (if truthy (dgetV raw "job_is_remote") then "remote" else "onsite")),
      ("employment_type", .str (pyUpper employmentType)),
      ("salary_min", to_str (dgetV raw "job_min_salary")),
      ("salary_max", to_str (dgetV raw "job_max_salary")),
      ("salary_currency", dgetD raw "job_salary_currency" (.str "USD")),
      ("salary_period", orV (.str (pyLower salaryPeriod)) .null),
      ("apply_url", dgetD raw "job_apply_link" (.str "")),
      ("apply_options", dgetV raw "apply_options"),
      ("posted_at", parse_iso env (dgetV raw "job_posted_at_datetime_utc")),
      ("application_deadline", parse_iso env (dgetV raw "job_offer_expiration_datetime_utc")),
      ("required_experience_years", expYears),
      ("required_education", extract_education (dgetV raw "job_required_education")),
      ("skills", orV (dgetV raw "job_required_skills") (.list [])),
      ("benefits", extract_highlights_benefits (dgetV raw "job_highlights")),
      ("key_responsibilities", extract_highlights_responsibilities (dgetV raw "job_highlights"))])
  else if source = "adzuna" then do
    let companyObj := orV (dgetV raw "company") (.dict [])
    let locationObj := orV (dgetV raw "location") (.dict [])
    let remoteText ← pyAdd (dgetD raw "title" (.str ""))
      (.str " ") >>= fun t => pyAdd t (dgetD raw "description" (.str ""))
    let remoteStr ← asStrE remoteText
    let employmentType ← asStrE (orV (dgetV raw "contract_type") (.str "FULLTIME"))
    pure (some [
      ("title", dgetD raw "title" (.str "")),
      ("company",
        match companyObj with
        | .dict kvs => dgetD kvs "display_name" (.str "Unknown")
        | v => .str (pyStr v)),
      ("description", dgetD raw "description" (.str "")),
      ("city",
        match locationObj with
        | .dict kvs => dgetV kvs "display_name"
        | _ => .null),
      ("country", dgetD raw "_adzuna_country" (.str "")),
      ("is_remote", .bool (detect_remote_from_text remoteStr)),
      ("work_arrangement",
        .str (if detect_remote_from_text remoteStr then "remote" else "onsite")),
      ("employment_type", .str (pyUpper employmentType)),
      ("salary_min", to_str (dgetV raw "salary_min")),
      ("salary_max", to_str (dgetV raw "salary_max")),
      ("salary_currency", orV (dgetV raw "salary_currency")
        (.str (if Value.beq (dgetV raw "_adzuna_country") (.str "gb") then "GBP" else "USD"))),
      ("apply_url", dgetD raw "redirect_url" (.str "")),
      ("posted_at", parse_iso env (dgetV raw "created")),
      ("latitude", dgetV raw "latitude"),
      ("longitude", dgetV raw "longitude"),
      ("tags",
        match dgetV raw "category" with
        | .dict kvs => .list [dgetV kvs "label"]
        | _ => .list [])])
  else if source = "hackernews" then
    pure (some [
      ("title", dgetD raw "title" (.str "")),
      ("company", dgetD raw "company" (.str "Unknown")),
      ("description", orV (dgetV raw "description") (dgetD raw "_raw_text" (.str ""))),
      ("country", dgetV raw "location_raw"),
      ("is_remote", dgetD raw "remote" (.bool false)),
      ("work_arrangement", .str (if truthy (dgetV raw "remote") then "remote" else "onsite")),
      ("apply_url", dgetD raw "apply_url" (.str "")),
      ("posted_at", orV (parse_epoch (dgetV raw "hn_time")) (parse_iso env (dgetV raw "posted_at"))),
      ("source_url", dgetV raw "apply_url"),
      ("tags", .list [])])
  else if source = "rss_feed" then
    pure (some [
      ("title", dgetD raw "title" (.str "")),
      ("company", dgetD raw "company" (.str "Unknown")),
      ("description", orV (dgetV raw "description") (dgetD raw "_description_html" (.str ""))),
      ("country", dgetV raw "location_raw"),
      ("is_remote", dgetD raw "remote" (.bool true)),
      ("work_arrangement",
        .str (if truthy (dgetD raw "remote" (.bool true)) then "remote" else "onsite")),
      ("apply_url", orV (dgetV raw "apply_url") (dgetD raw "link" (.str ""))),
      ("posted_at", parse_posted_at env (dgetV raw "posted_at")),
      ("tags", orV (dgetV raw "_tags") (.list []))])
  else if source = "ats_scraper" then
    let location := orV (dgetV raw "location") (.dict [])
    pure (some [
      ("title", dgetD raw "title" (.str "")),
      ("company", dgetD raw "company" (.str "Unknown")),
      ("description", dgetD raw "description" (.str "")),
      ("city", match location with | .dict kvs => dgetV kvs "city" | _ => .null),
      ("country", match location with | .dict kvs => dgetV kvs "country" | _ => .null),
      ("is_remote",
        match location with | .dict kvs => dgetD kvs "remote" (.bool false) | _ => .bool false),
      ("employment_type", dgetV raw "employment_type"),
      ("apply_url", dgetD raw "apply_url" (.str "")),
      ("posted_at", parse_iso env (dgetV raw "posted_at"))])
  else
    pure none
where
  /-- EnrichmentPipeline._detect_remote_from_text: re.search of
  `\b(remote|work from home|wfh|telecommut|anywhere)\b` on the lowered text -/
  detect_remote_from_text (text : String) : Bool :=
    SkillsExtractor.patSearch
      (["remote", "work from home", "wfh", "telecommut", "anywhere"].map SkillsExtractor.mkPat)
      (pyLower text)
  /-- EnrichmentPipeline._extract_years: min years from the JSearch
  experience object; `int()` on a malformed months value raises -/
  extract_years (expObj : Value) : Except PyErr Value :=
    match expObj with
    | .dict kvs =>
      if !truthy (.dict kvs) then pure .null
      else
        let minMonths := dgetV kvs "required_experience_in_months"
        if truthy minMonths then
          match toInt? minMonths with
          | some n => pure (.int (max 1 (n.fdiv 12)))
          | none => Except.error .valueError
        else if truthy (dgetV kvs "no_experience_required") then pure (.int 0)
        else pure .null
    | _ => pure .null
  /-- EnrichmentPipeline._extract_education -/
  extract_education (eduObj : Value) : Value :=
    match eduObj with
    | .dict kvs =>
      if !truthy (.dict kvs) then .null
      else if truthy (dgetV kvs "degree_preferred") || truthy (dgetV kvs "degree_mentioned") then
        .str "Bachelor\x27s"
      else .null
    | _ => .null
  /-- EnrichmentPipeline._extract_highlights_benefits -/
  extract_highlights_benefits (highlights : Value) : Value :=
    match highlights with
    | .dict kvs =>
      if !truthy (.dict kvs) then .null
      else orV (dgetV kvs "Benefits") (dgetV kvs "benefits")
    | _ => .null
  /-- EnrichmentPipeline._extract_highlights_responsibilities -/
  extract_highlights_responsibilities (highlights : Value) : Value :=
    match highlights with
    | .dict kvs =>
      if !truthy (.dict kvs) then .null
      else orV (dgetV kvs "Responsibilities") (dgetV kvs "responsibilities")
    | _ => .null

/-- the try-block body of _fallback_extract: per-source mapping, the
required-field check, rule-based skills/category, then finalization -/
def fallback_body (env : Env) (source : String) (raw : Dict) :
    Except PyErr (Option Dict) := do
  match ← source_extract env source raw with
  | none => pure none
  | some extracted =>
    if !truthy (dgetV extracted "title") || !truthy (dgetV extracted "description") then
      pure none
    else do
      let title := dgetD extracted "title" (.str "")
      let desc := dgetD extracted "description" (.str "")
      let ex1 :=
        if truthy (dgetV extracted "skills") then extracted
        else dset extracted "skills"
          (.list ((SkillsExtractor.extract title desc).map (fun s => .str s)))
      let ex2 ←
        if truthy (dgetV ex1 "category") then pure ex1
        else do
          let cat ← SkillsExtractor.categorize_role title desc (dgetD ex1 "skills" (.list []))
          pure (dset ex1 "category" (.str cat))
      finalize_job env source raw (.dict ex2)

/-- EnrichmentPipeline._fallback_extract: the try/except wrapper — any
internal error yields None (a per-record rejection, never an exception) -/
def fallback_extract (env : Env) (source : String) (raw : Dict) : Option Dict :=
  match fallback_body env source raw with
  | .ok r => r
  | .error _ => none

/-- EnrichmentPipeline._process_with_fallback -/
def process_with_fallback (env : Env) (source : String) (raw_jobs : List Dict) : List Dict :=
  raw_jobs.filterMap (fallback_extract env source)

end EnrichmentPipeline

-- ---------------------------------------------------------------------------
-- AIProcessor (the Gemini gateway)
-- ---------------------------------------------------------------------------

/-- structural worker for `chunksOf`: the fuel starts at the list length and
dominates it throughout (`drop bs` shortens a non-empty list for bs > 0) -/
def chunksOfGo (bs : Nat) : Nat → List α → List (List α)
  | _, [] => []
  | 0, _ :: _ => []
  | fuel + 1, x :: xs => (x :: xs).take bs :: chunksOfGo bs fuel ((x :: xs).drop bs)

/-- the chunking `raw_jobs[i:i+batch_size] for i in range(0, total, batch_size)`
(for a zero step Python raises ValueError; every caller passes a positive
batch size, and this model returns [] in that degenerate case) -/
def chunksOf (bs : Nat) (l : List α) : List (List α) :=
  if bs = 0 then [] else chunksOfGo bs l.length l

namespace AIProcessor

/-- the single-job prompt of process_raw_job -/
def single_prompt (source : String) (raw : Dict) : String :=
  "Extract this job from source \"" ++ source ++
    "\" into the schema. Return a single JSON object.\n\n" ++ jsonDumps (.dict raw)

/-- the batch prompt of _process_chunk -/
def batch_prompt (source : String) (chunk : List Dict) : String :=
  let n := chunk.length
  "Extract " ++ toString n ++ " jobs from source \"" ++ source ++
    "\". Return a JSON array with exactly " ++ toString n ++
    " objects in the same order.\n\n" ++
    String.intercalate "\n\n" (chunk.enum.map (fun p =>
      "=== JOB " ++ toString (p.1 + 1) ++ " of " ++ toString n ++ " ===\n" ++
        jsonDumps (.dict p.2)))

/-- AIProcessor.process_raw_job: one Gemini call for a single record; a list
result is unwrapped to its head (or None when empty), an exception yields
None, any other payload is returned as-is -/
def process_raw_job (env : Env) (source : String) (raw : Dict) : Value :=
  if !env.ai_enabled then .null
  else
    match env.gemini (single_prompt source raw) with
    | .error _ => .null
    | .ok (.list []) => .null
    | .ok (.list (x :: _)) => x
    | .ok v => v

/-- AIProcessor._fallback_to_single: retry each job of a failed chunk
individually -/
def fallback_to_single (env : Env) (source : String) (chunk : List Dict) : List Value :=
  chunk.map (process_raw_job env source)

/-- AIProcessor._process_chunk: one Gemini call for the chunk; an array of
the right length is accepted positionally, a mismatched array is padded with
None and truncated to the chunk length, a dict answers a singleton chunk,
and anything else — exception or unexpected payload — retries every item
through the single-job path -/
def process_chunk (env : Env) (source : String) (chunk : List Dict) : List Value :=
  match env.gemini (batch_prompt source chunk) with
  | .error _ => fallback_to_single env source chunk
  | .ok (.list xs) =>
    if xs.length = chunk.length then xs
    else (xs ++ List.replicate chunk.length Value.null).take chunk.length
  | .ok (.dict kvs) =>
    if chunk.length = 1 then [.dict kvs] else fallback_to_single env source chunk
  | .ok _ => fallback_to_single env source chunk

/-- AIProcessor.process_batch: chunk the records and concatenate the
per-chunk results (`[None] * len` when the processor is disabled) -/
def process_batch (env : Env) (source : String) (raw_jobs : List Dict) (batch_size : Nat) :
    List Value :=
  if !env.ai_enabled then List.replicate raw_jobs.length .null
  else ((chunksOf batch_size raw_jobs).map (process_chunk env source)).flatten

end AIProcessor

-- ---------------------------------------------------------------------------
-- the pipeline orchestrator (_process_with_ai / process_source)
-- ---------------------------------------------------------------------------

namespace EnrichmentPipeline

/-- the try-block of one chunk's unit of work in _process_with_ai: the AI
call for the chunk, then per-item finalization (or per-item fallback when
the AI result for that position is falsy).  A finalization error escapes the
loop and is caught by the chunk's except handler. -/
def chunk_try (env : Env) (source : String) (chunk : List Dict) :
    Except PyErr (List Dict) := do
  let ai := AIProcessor.process_chunk env source chunk
  (chunk.zip ai).foldlM (fun acc p => do
    if truthy p.2 then do
      match ← finalize_job env source p.1 p.2 with
      | some j => pure (acc ++ [j])
      | none => pure acc
    else
      match fallback_extract env source p.1 with
      | some j => pure (acc ++ [j])
      | none => pure acc) []

/-- one chunk's unit of work with its except handler: any error inside the
chunk degrades the whole chunk to the fallback extractor -/
def chunk_unit (env : Env) (source : String) (chunk : List Dict) : List Dict :=
  match chunk_try env source chunk with
  | .ok l => l
  | .error _ => chunk.filterMap (fallback_extract env source)

/-- EnrichmentPipeline._process_with_ai.  Chunks are dispatched through a
semaphore-bounded gather whose result list is in chunk order; the model is
the sequential denotation (the semaphore and thread pool affect scheduling
only).  The second component collects the `on_batch_ready` deliveries: each
chunk's results are delivered as soon as they exist, and only when non-empty;
the callback is the coordinator's save hook and is modelled as an
accumulator (it is not itself assumed to raise).  Callback invocation order
is scheduling-dependent in Python; this model lists deliveries in chunk
order, and no claim below depends on delivery order. -/
def process_with_ai (env : Env) (source : String) (raw_jobs : List Dict)
    (batch_size : Nat) : List Dict × List (List Dict) :=
  (chunksOf batch_size raw_jobs).foldl (fun acc chunk =>
    let r := chunk_unit env source chunk
    (acc.1 ++ r, acc.2 ++ if r.isEmpty then [] else [r])) ([], [])

/-- EnrichmentPipeline.process_source (results, deliveries to
on_batch_ready).  `max_concurrent` bounds in-flight chunks and does not
affect the functional result. -/
def process_source (env : Env) (source : String) (raw_jobs : List Dict)
    (batch_size : Nat) (_max_concurrent : Nat) : List Dict × List (List Dict) :=
  if raw_jobs.isEmpty then ([], [])
  else if env.ai_enabled then process_with_ai env source raw_jobs batch_size
  else
    let jobs := process_with_fallback env source raw_jobs
    (jobs, if jobs.isEmpty then [] else [jobs])

end EnrichmentPipeline

-- ---------------------------------------------------------------------------
-- Database.save_jobs
-- ---------------------------------------------------------------------------

namespace Database

/-- a persisted jobs row, reduced to the columns the save path reads
(primary key and dedup hash) plus the record it was built from -/
structure Row where
  id : String
  title_company_hash : String
  data : Dict

/-- save statistics -/
structure SaveStats where
  new : Nat
  skipped : Nat
deriving DecidableEq, Repr

/-- the per-record body of the save loop (the try-block): compute the id
(KeyError when the id is falsy and source/source_id are absent) and the
dedup hash (`.lower()` raises on a non-str title/company), then check for an
existing id or hash.  Thanks to autoflush, both checks see the committed
rows and the rows already inserted in the current transaction.  A non-str
id or hash value cannot be bound against the string columns (driver error).
Returns `none` for a duplicate (skip) and the row to insert otherwise. -/
def save_one (store txn : List Row) (jd : Dict) : Except PyErr (Option Row) := do
  let idv ←
    if truthy (dgetV jd "id") then pure (dgetV jd "id")
    else do
      let s ←
        match dget jd "source" with
        | some v => Except.ok v
        | none => Except.error .keyError
      let sid ←
        match dget jd "source_id" with
        | some v => Except.ok v
        | none => Except.error .keyError
      pure (.str (pyStr s ++ "_" ++ pyStr sid))
  let hv ←
    if truthy (dgetV jd "title_company_hash") then pure (dgetV jd "title_company_hash")
    else do
      let t ← asStrE (dgetD jd "title" (.str ""))
      let c ← asStrE (dgetD jd "company" (.str ""))
      pure (.str (hash_title_company t c))
  let idStr ←
    match idv with
    | .str s => Except.ok s
    | _ => Except.error .dbError
  let hStr ←
    match hv with
    | .str s => Except.ok s
    | _ => Except.error .dbError
  if (store ++ txn).any (fun r => r.id = idStr) then pure none
  else if (store ++ txn).any (fun r => r.title_company_hash = hStr) then pure none
  else pure (some ⟨idStr, hStr, jd⟩)

/-- Database.save_jobs over a store of committed rows.  One session serves
the whole batch: inserts accumulate in the open transaction, a per-record
exception is caught, counted as skipped, and triggers `session.rollback()`,
which discards every not-yet-committed insert of the same batch (while the
counters keep their values); the single `commit()` at the end persists
whatever survived.  Returns the stats and the new committed store. -/
def save_jobs (store : List Row) (jobs : List Dict) : SaveStats × List Row :=
  let step := fun (acc : Nat × Nat × List Row) (jd : Dict) =>
    let (n, s, txn) := acc
    match save_one store txn jd with
    | .error _ => (n, s + 1, ([] : List Row))
    | .ok none => (n, s + 1, txn)
    | .ok (some row) => (n + 1, s, txn ++ [row])
  let fin := jobs.foldl step (0, 0, [])
  (⟨fin.1, fin.2.1⟩, store ++ fin.2.2)

end Database

-- ---------------------------------------------------------------------------
-- helper lemmas
-- ---------------------------------------------------------------------------

theorem except_bind_ok {α β : Type} (a : α) (f : α → Except PyErr β) :
    (Except.ok a >>= f) = f a := rfl

theorem except_bind_error {α β : Type} (e : PyErr) (f : α → Except PyErr β) :
    ((Except.error e : Except PyErr α) >>= f) = Except.error e := rfl

theorem except_pure_eq {α : Type} (a : α) : (pure a : Except PyErr α) = Except.ok a := rfl

theorem dget_map_set_some (d : Dict) (k : String) (v : Value)
    (h : (dget d k).isSome) :
    dget (d.map (fun p => if p.1 = k then (k, v) else p)) k = some v := by
  induction d with
  | nil => simp [dget] at h
  | cons p rest ih =>
    by_cases hk : p.1 = k
    · rw [List.map_cons, if_pos hk, dget, if_pos rfl]
    · rw [dget, if_neg hk] at h
      rw [List.map_cons, if_neg hk, dget, if_neg hk]
      exact ih h

theorem dget_map_set_ne (d : Dict) (k k' : String) (v : Value) (h : k' ≠ k) :
    dget (d.map (fun p => if p.1 = k then (k, v) else p)) k' = dget d k' := by
  induction d with
  | nil => rfl
  | cons p rest ih =>
    by_cases hk : p.1 = k
    · rw [List.map_cons, if_pos hk, dget, dget, hk,
        if_neg (fun hh => h hh.symm), if_neg (fun hh => h hh.symm)]
      exact ih
    · rw [List.map_cons, if_neg hk, dget, dget]
      split
      · rfl
      · exact ih

theorem dget_append_one_self (d : Dict) (k : String) (v : Value) :
    dget (d ++ [(k, v)]) k = ((dget d k).getD v : Value) := by
  induction d with
  | nil => simp [dget]
  | cons p rest ih =>
    rw [List.cons_append, dget, dget]
    split
    · rfl
    · exact ih

theorem dget_append_one_ne (d : Dict) (k k' : String) (v : Value) (h : k' ≠ k) :
    dget (d ++ [(k, v)]) k' = dget d k' := by
  induction d with
  | nil => simp [dget, Ne.symm h]
  | cons p rest ih =>
    rw [List.cons_append, dget, dget]
    split
    · rfl
    · exact ih

theorem dget_dset_self (d : Dict) (k : String) (v : Value) :
    dget (dset d k v) k = some v := by
  unfold dset
  split
  case isTrue h => exact dget_map_set_some d k v h
  case isFalse h =>
    rw [dget_append_one_self]
    cases hd : dget d k with
    | none => rfl
    | some w => exact absurd (by simp [hd]) h

theorem dget_dset_ne (d : Dict) (k k' : String) (v : Value) (h : k' ≠ k) :
    dget (dset d k v) k' = dget d k' := by
  unfold dset
  split
  · exact dget_map_set_ne d k k' v h
  · exact dget_append_one_ne d k k' v h

theorem dgetV_dset_self (d : Dict) (k : String) (v : Value) :
    dgetV (dset d k v) k = v := by
  simp [dgetV, dget_dset_self]

theorem dgetV_dset_ne (d : Dict) (k k' : String) (v : Value) (h : k' ≠ k) :
    dgetV (dset d k v) k' = dgetV d k' := by
  simp [dgetV, dget_dset_ne _ _ _ _ h]

theorem dgetD_dset_ne (d : Dict) (k k' : String) (v dflt : Value) (h : k' ≠ k) :
    dgetD (dset d k v) k' dflt = dgetD d k' dflt := by
  simp [dgetD, dget_dset_ne _ _ _ _ h]

theorem chunksOfGo_fuel {α : Type} (bs : Nat) (hbs : 0 < bs) :
    ∀ (fuel fuel' : Nat) (l : List α), l.length ≤ fuel → l.length ≤ fuel' →
      chunksOfGo bs fuel l = chunksOfGo bs fuel' l := by
  intro fuel
  induction fuel with
  | zero =>
    intro fuel' l hl _
    have : l = [] := List.eq_nil_of_length_eq_zero (Nat.le_zero.mp hl)
    subst this
    cases fuel' <;> rfl
  | succ n ih =>
    intro fuel' l hl hl'
    cases l with
    | nil => cases fuel' <;> rfl
    | cons x xs =>
      cases fuel' with
      | zero => simp at hl'
      | succ m =>
        rw [chunksOfGo, chunksOfGo]
        congr 1
        simp only [List.length_cons] at hl hl'
        have hd : ((x :: xs).drop bs).length ≤ n := by
          rw [List.length_drop, List.length_cons]; omega
        have hd' : ((x :: xs).drop bs).length ≤ m := by
          rw [List.length_drop, List.length_cons]; omega
        exact ih m ((x :: xs).drop bs) hd hd'

theorem chunksOf_cons {α : Type} (bs : Nat) (hbs : 0 < bs) (x : α) (xs : List α) :
    chunksOf bs (x :: xs) = (x :: xs).take bs :: chunksOf bs ((x :: xs).drop bs) := by
  unfold chunksOf
  rw [if_neg (Nat.pos_iff_ne_zero.mp hbs), if_neg (Nat.pos_iff_ne_zero.mp hbs)]
  rw [List.length_cons, chunksOfGo]
  congr 1
  apply chunksOfGo_fuel bs hbs
  · rw [List.length_drop, List.length_cons]; omega
  · exact le_refl _

theorem chunksOf_flatten {α : Type} (bs : Nat) (hbs : 0 < bs) :
    ∀ (n : Nat) (l : List α), l.length ≤ n → (chunksOf bs l).flatten = l := by
  intro n
  induction n with
  | zero =>
    intro l hl
    have : l = [] := List.eq_nil_of_length_eq_zero (Nat.le_zero.mp hl)
    subst this
    simp [chunksOf, chunksOfGo]
  | succ n ih =>
    intro l hl
    match l with
    | [] => simp [chunksOf, chunksOfGo]
    | x :: xs =>
      rw [chunksOf_cons bs hbs, List.flatten_cons,
        ih ((x :: xs).drop bs) (by rw [List.length_drop, List.length_cons]
                                   rw [List.length_cons] at hl; omega)]
      exact List.take_append_drop bs (x :: xs)

theorem process_chunk_length (env : Env) (source : String) (chunk : List Dict) :
    (AIProcessor.process_chunk env source chunk).length = chunk.length := by
  unfold AIProcessor.process_chunk
  cases h : env.gemini (AIProcessor.batch_prompt source chunk) with
  | error e => simp [AIProcessor.fallback_to_single]
  | ok v =>
    cases v with
    | list xs =>
      by_cases hl : xs.length = chunk.length
      · simp [hl]
      · simp only [hl, if_false, List.length_take, List.length_append,
          List.length_replicate]
        omega
    | dict kvs =>
      by_cases h1 : chunk.length = 1
      · simp [h1]
      · simp [h1, AIProcessor.fallback_to_single]
    | null => simp [AIProcessor.fallback_to_single]
    | bool b => simp [AIProcessor.fallback_to_single]
    | int n => simp [AIProcessor.fallback_to_single]
    | str s => simp [AIProcessor.fallback_to_single]
    | dt a t => simp [AIProcessor.fallback_to_single]

theorem process_with_ai_spec (env : Env) (source : String) (raw_jobs : List Dict)
    (batch_size : Nat) :
    EnrichmentPipeline.process_with_ai env source raw_jobs batch_size =
      (((chunksOf batch_size raw_jobs).map (EnrichmentPipeline.chunk_unit env source)).flatten,
       ((chunksOf batch_size raw_jobs).map (EnrichmentPipeline.chunk_unit env source)).filter
         (fun r => !r.isEmpty)) := by
  unfold EnrichmentPipeline.process_with_ai
  generalize chunksOf batch_size raw_jobs = chunks
  suffices h : ∀ (acc : List Dict × List (List Dict)),
      chunks.foldl (fun acc chunk =>
        let r := EnrichmentPipeline.chunk_unit env source chunk
        (acc.1 ++ r, acc.2 ++ if r.isEmpty then [] else [r])) acc =
      (acc.1 ++ ((chunks.map (EnrichmentPipeline.chunk_unit env source)).flatten),
       acc.2 ++ (chunks.map (EnrichmentPipeline.chunk_unit env source)).filter
         (fun r => !r.isEmpty)) by
    simpa using h ([], [])
  induction chunks with
  | nil => intro acc; simp
  | cons c cs ih =>
    intro acc
    rw [List.foldl_cons, ih]
    simp only [List.map_cons, List.flatten_cons, List.filter_cons]
    by_cases hr : (EnrichmentPipeline.chunk_unit env source c).isEmpty
    · have hnil : EnrichmentPipeline.chunk_unit env source c = [] := by
        simpa [List.isEmpty_iff] using hr
      simp [hnil, List.append_assoc]
    · simp [hr, List.append_assoc]

/-- the key is either absent or bound to a genuine string (the shape under
which Python's `.lower()` on `d.get(k, "")` cannot raise) -/
def strField (d : Dict) (k : String) : Prop :=
  dget d k = none ∨ ∃ s, dget d k = some (.str s)

theorem strField_dset_ne (d : Dict) (k k' : String) (v : Value) (h : k' ≠ k) :
    strField d k' → strField (dset d k v) k' := by
  intro hs
  unfold strField
  rw [dget_dset_ne _ _ _ _ h]
  exact hs

theorem dget_finalize_pre (source : String) (raw : Dict) (sid : String) (job0 : Dict)
    (k : String) (h1 : k ≠ "source") (h2 : k ≠ "source_id") (h3 : k ≠ "id")
    (h4 : k ≠ "raw_data") (h5 : k ≠ "source_url") :
    dget (EnrichmentPipeline.finalize_pre source raw sid job0) k = dget job0 k := by
  simp only [EnrichmentPipeline.finalize_pre]
  split
  · rw [dget_dset_ne _ _ _ _ h4, dget_dset_ne _ _ _ _ h3,
      dget_dset_ne _ _ _ _ h2, dget_dset_ne _ _ _ _ h1]
  · rw [dget_dset_ne _ _ _ _ h5, dget_dset_ne _ _ _ _ h4, dget_dset_ne _ _ _ _ h3,
      dget_dset_ne _ _ _ _ h2, dget_dset_ne _ _ _ _ h1]

theorem dgetV_finalize_pre (source : String) (raw : Dict) (sid : String) (job0 : Dict)
    (k : String) (h1 : k ≠ "source") (h2 : k ≠ "source_id") (h3 : k ≠ "id")
    (h4 : k ≠ "raw_data") (h5 : k ≠ "source_url") :
    dgetV (EnrichmentPipeline.finalize_pre source raw sid job0) k = dgetV job0 k := by
  unfold dgetV
  rw [dget_finalize_pre source raw sid job0 k h1 h2 h3 h4 h5]

theorem strField_finalize_pre (source : String) (raw : Dict) (sid : String) (job0 : Dict)
    (k : String) (h1 : k ≠ "source") (h2 : k ≠ "source_id") (h3 : k ≠ "id")
    (h4 : k ≠ "raw_data") (h5 : k ≠ "source_url") :
    strField job0 k → strField (EnrichmentPipeline.finalize_pre source raw sid job0) k := by
  intro hs
  unfold strField
  rw [dget_finalize_pre source raw sid job0 k h1 h2 h3 h4 h5]
  exact hs

theorem score_ok (job : Dict) (hd : strField job "description") (hc : strField job "company") :
    ∃ n, QualityScorer.score job = .ok n := by
  have hdesc : ∃ s, dgetD job "description" (.str "") = .str s := by
    rcases hd with h | ⟨s, h⟩
    · exact ⟨"", by simp [dgetD, h]⟩
    · exact ⟨s, by simp [dgetD, h]⟩
  have hcomp : ∃ s, dgetD job "company" (.str "") = .str s := by
    rcases hc with h | ⟨s, h⟩
    · exact ⟨"", by simp [dgetD, h]⟩
    · exact ⟨s, by simp [dgetD, h]⟩
  obtain ⟨ds, hds⟩ := hdesc
  obtain ⟨cs, hcs⟩ := hcomp
  unfold QualityScorer.score
  rw [hds, hcs]
  by_cases h1 : truthy (.str ds) <;> by_cases h2 : truthy (.str cs) <;>
    simp [h1, h2, pyLenE, except_bind_ok, except_pure_eq]

/-- a string-or-absent field makes `asStrE (job.get(k, ""))` succeed -/
theorem asStrE_of_strField (job : Dict) (k : String) (h : strField job k) :
    ∃ s, asStrE (dgetD job k (.str "")) = .ok s := by
  rcases h with h | ⟨s, h⟩
  · exact ⟨"", by simp [dgetD, h, asStrE]⟩
  · exact ⟨s, by simp [dgetD, h, asStrE]⟩

theorem finalize_rest2_ok (env : Env) (raw : Dict) (job7 : Dict)
    (ht : strField job7 "title") (hc : strField job7 "company")
    (hd : strField job7 "description") :
    ∃ j, EnrichmentPipeline.finalize_rest2 env raw job7 = .ok (some j) ∧
      dget j "posted_at" = dget job7 "posted_at" := by
  simp only [EnrichmentPipeline.finalize_rest2]
  by_cases hcomp : truthy (dgetV job7 "company")
  · rw [if_pos hcomp]
    obtain ⟨n, hn⟩ := score_ok job7 hd hc
    rw [hn, except_bind_ok]
    obtain ⟨ts, hts⟩ := asStrE_of_strField (dset job7 "quality_score" (.int n)) "title"
      (strField_dset_ne _ _ _ _ (by decide) ht)
    rw [hts, except_bind_ok]
    obtain ⟨cs, hcs⟩ := asStrE_of_strField (dset job7 "quality_score" (.int n)) "company"
      (strField_dset_ne _ _ _ _ (by decide) hc)
    rw [hcs, except_bind_ok]
    refine ⟨_, rfl, ?_⟩
    split
    · rw [dget_dset_ne _ _ _ _ (by decide), dget_dset_ne _ _ _ _ (by decide),
        dget_dset_ne _ _ _ _ (by decide)]
    · rw [dget_dset_ne _ _ _ _ (by decide), dget_dset_ne _ _ _ _ (by decide),
        dget_dset_ne _ _ _ _ (by decide), dget_dset_ne _ _ _ _ (by decide)]
  · rw [if_neg hcomp]
    have hc8 : strField (dset job7 "company" (.str "Unknown")) "company" := by
      unfold strField
      rw [dget_dset_self]
      exact Or.inr ⟨"Unknown", rfl⟩
    have hd8 : strField (dset job7 "company" (.str "Unknown")) "description" :=
      strField_dset_ne _ _ _ _ (by decide) hd
    have ht8 : strField (dset job7 "company" (.str "Unknown")) "title" :=
      strField_dset_ne _ _ _ _ (by decide) ht
    obtain ⟨n, hn⟩ := score_ok (dset job7 "company" (.str "Unknown")) hd8 hc8
    rw [hn, except_bind_ok]
    obtain ⟨ts, hts⟩ := asStrE_of_strField
      (dset (dset job7 "company" (.str "Unknown")) "quality_score" (.int n)) "title"
      (strField_dset_ne _ _ _ _ (by decide) ht8)
    rw [hts, except_bind_ok]
    obtain ⟨cs, hcs⟩ := asStrE_of_strField
      (dset (dset job7 "company" (.str "Unknown")) "quality_score" (.int n)) "company"
      (strField_dset_ne _ _ _ _ (by decide) hc8)
    rw [hcs, except_bind_ok]
    refine ⟨_, rfl, ?_⟩
    split
    · rw [dget_dset_ne _ _ _ _ (by decide), dget_dset_ne _ _ _ _ (by decide),
        dget_dset_ne _ _ _ _ (by decide), dget_dset_ne _ _ _ _ (by decide)]
    · rw [dget_dset_ne _ _ _ _ (by decide), dget_dset_ne _ _ _ _ (by decide),
        dget_dset_ne _ _ _ _ (by decide), dget_dset_ne _ _ _ _ (by decide),
        dget_dset_ne _ _ _ _ (by decide)]

theorem finalize_rest_ok (env : Env) (raw : Dict) (job6 : Dict)
    (ht : strField job6 "title") (hc : strField job6 "company")
    (hd : strField job6 "description") :
    ∃ j, EnrichmentPipeline.finalize_rest env raw job6 = .ok (some j) ∧
      dget j "posted_at" = dget job6 "posted_at" := by
  unfold EnrichmentPipeline.finalize_rest
  cases hadl : dgetV job6 "application_deadline" with
  | str s =>
    obtain ⟨j, hj, hp⟩ := finalize_rest2_ok env raw
      (dset job6 "application_deadline" (parse_iso env (.str s)))
      (strField_dset_ne _ _ _ _ (by decide) ht)
      (strField_dset_ne _ _ _ _ (by decide) hc)
      (strField_dset_ne _ _ _ _ (by decide) hd)
    exact ⟨j, hj, by rw [hp, dget_dset_ne _ _ _ _ (by decide)]⟩
  | null => exact finalize_rest2_ok env raw job6 ht hc hd
  | bool b => exact finalize_rest2_ok env raw job6 ht hc hd
  | int n => exact finalize_rest2_ok env raw job6 ht hc hd
  | dt a t => exact finalize_rest2_ok env raw job6 ht hc hd
  | list xs => exact finalize_rest2_ok env raw job6 ht hc hd
  | dict kvs => exact finalize_rest2_ok env raw job6 ht hc hd

-- ---------------------------------------------------------------------------
-- concrete fixtures used by the claim theorems and witnesses
-- ---------------------------------------------------------------------------

/-- a baseline environment: a fixed clock, failing/trivial oracles, AI off -/
def env0 : Env :=
  { now := 1700000000
    isoparse := (fun _ => none)
    md5hex16 := (fun _ => "")
    gemini := (fun _ => .error ())
    ai_enabled := false }

/-- did finalization accept the record (as opposed to dropping it or raising) -/
def is_accepted (r : Except PyErr (Option Dict)) : Bool :=
  match r with
  | .ok (some _) => true
  | _ => false

/-- a well-formed already-hashed record, as the pipeline hands to save_jobs -/
def jdA : Dict := [("id", .str "a"), ("title_company_hash", .str "h1")]

/-- a record whose save raises: its id is absent and the `f"{job_data['source']}_..."`
fallback hits a KeyError -/
def jdBad : Dict := []

-- ---------------------------------------------------------------------------
-- claims
-- ---------------------------------------------------------------------------

set_option maxRecDepth 100000

/-- C7: the title+company fingerprint is a deterministic function of the
lowercased, trimmed title and company — any two inputs with equal normalized
forms hash identically — and the concrete titles "Backend Engineer" and
"Frontend Engineer" (same company "X") hash differently. -/
theorem claim_C7 :
    (∀ t1 c1 t2 c2 : String,
        pyStrip (pyLower t1) = pyStrip (pyLower t2) →
        pyStrip (pyLower c1) = pyStrip (pyLower c2) →
        hash_title_company t1 c1 = hash_title_company t2 c2) ∧
    hash_title_company "Backend Engineer" "X" ≠ hash_title_company "Frontend Engineer" "X" := by
  constructor
  · intro t1 c1 t2 c2 h1 h2
    unfold hash_title_company
    rw [h1, h2]
  · decide

/-- C7 witness: the spec's own example pair "Backend Engineer" vs
"backend engineer " (same company) has equal normalized forms, hence equal
hashes. -/
theorem claim_C7_witness :
    pyStrip (pyLower "Backend Engineer") = pyStrip (pyLower "backend engineer ") ∧
    hash_title_company "Backend Engineer" "Acme" =
      hash_title_company "backend engineer " "Acme" :=
  ⟨by decide, claim_C7.1 "Backend Engineer" "Acme" "backend engineer " "Acme" (by decide) rfl⟩

/-- C2 (code bug): in a batch [good, bad] over an empty store, the bad
record's exception triggers a session rollback that discards the good
sibling's pending insert — the stats still count it as new (new=1,
skipped=1) but the committed store is empty, whereas saving the good record
alone persists it.  One bad record thus undoes its siblings' inserts. -/
theorem claim_C2 :
    Database.save_jobs [] [jdA, jdBad] = (⟨1, 1⟩, []) ∧
    Database.save_jobs [] [jdA] = (⟨1, 0⟩, [⟨"a", "h1", jdA⟩]) :=
  ⟨rfl, rfl⟩

/-- C4: save_jobs is idempotent per record — saving the same record twice
gives {new:1,skipped:0} then {new:0,skipped:1}; and any record whose
computed id, or whose hash, already exists in the store is skipped (a clean
`.ok none`, not an exception) and counted. -/
theorem claim_C4 :
    (Database.save_jobs [] [jdA] = (⟨1, 0⟩, [⟨"a", "h1", jdA⟩]) ∧
     Database.save_jobs [⟨"a", "h1", jdA⟩] [jdA] = (⟨0, 1⟩, [⟨"a", "h1", jdA⟩])) ∧
    (∀ (store : List Database.Row) (jd : Dict) (i h : String),
        dgetV jd "id" = .str i → i ≠ "" →
        dgetV jd "title_company_hash" = .str h → h ≠ "" →
        store.any (fun r => r.id = i) = true →
        Database.save_one store [] jd = .ok none ∧
        Database.save_jobs store [jd] = (⟨0, 1⟩, store)) ∧
    (∀ (store : List Database.Row) (jd : Dict) (i h : String),
        dgetV jd "id" = .str i → i ≠ "" →
        dgetV jd "title_company_hash" = .str h → h ≠ "" →
        store.any (fun r => r.id = i) = false →
        store.any (fun r => r.title_company_hash = h) = true →
        Database.save_one store [] jd = .ok none ∧
        Database.save_jobs store [jd] = (⟨0, 1⟩, store)) := by
  refine ⟨⟨rfl, rfl⟩, ?_, ?_⟩
  · intro store jd i h hid hi hh hhne hany
    have hany2 : ∃ x ∈ store, x.id = i := by simpa using hany
    have hone : Database.save_one store [] jd = .ok none := by
      unfold Database.save_one
      rw [hid, hh]
      simp [truthy, hi, hhne, except_bind_ok, hany2, except_pure_eq]
    exact ⟨hone, by simp [Database.save_jobs, hone]⟩
  · intro store jd i h hid hi hh hhne hidany hhany
    have hidany2 : ¬ ∃ x ∈ store, x.id = i := by simpa using hidany
    have hhany2 : ∃ x ∈ store, x.title_company_hash = h := by simpa using hhany
    have hone : Database.save_one store [] jd = .ok none := by
      unfold Database.save_one
      rw [hid, hh]
      simp [truthy, hi, hhne, except_bind_ok, hidany2, hhany2, except_pure_eq]
    exact ⟨hone, by simp [Database.save_jobs, hone]⟩

/-- C4 witness: the two general dup-skip branches applied at a one-row
store. -/
theorem claim_C4_witness :
    (Database.save_one [⟨"a", "h1", jdA⟩] [] jdA = .ok none ∧
     Database.save_jobs [⟨"a", "h1", jdA⟩] [jdA] = (⟨0, 1⟩, [⟨"a", "h1", jdA⟩])) ∧
    (Database.save_one [⟨"b", "h1", jdA⟩] [] jdA = .ok none ∧
     Database.save_jobs [⟨"b", "h1", jdA⟩] [jdA] = (⟨0, 1⟩, [⟨"b", "h1", jdA⟩])) :=
  ⟨(claim_C4.2.1 [⟨"a", "h1", jdA⟩] jdA "a" "h1" rfl (by decide) rfl (by decide) (by decide)),
   (claim_C4.2.2 [⟨"b", "h1", jdA⟩] jdA "a" "h1" rfl (by decide) rfl (by decide) (by decide)
     (by decide))⟩

/-- an AI gateway stub that always answers with a fixed two-element array -/
def envW : Env := { env0 with ai_enabled := true
                              gemini := (fun _ => .ok (.list [.str "a", .str "b"])) }

/-- C3: process_batch preserves cardinality and positional order — the
result has the input's length for every positive batch size — and a chunk
whose array came back shorter is padded with None to the chunk length, while
a longer array is truncated to it. -/
theorem claim_C3 (env : Env) (source : String) (raws : List Dict) (bs : Nat)
    (hbs : 0 < bs) :
    (AIProcessor.process_batch env source raws bs).length = raws.length ∧
    (∀ (chunk : List Dict) (xs : List Value),
        env.gemini (AIProcessor.batch_prompt source chunk) = .ok (.list xs) →
        xs.length < chunk.length →
        AIProcessor.process_chunk env source chunk =
          xs ++ List.replicate (chunk.length - xs.length) Value.null) ∧
    (∀ (chunk : List Dict) (xs : List Value),
        env.gemini (AIProcessor.batch_prompt source chunk) = .ok (.list xs) →
        chunk.length < xs.length →
        AIProcessor.process_chunk env source chunk = xs.take chunk.length) := by
  refine ⟨?_, ?_, ?_⟩
  · unfold AIProcessor.process_batch
    by_cases he : env.ai_enabled
    · have hlen : ∀ cs : List (List Dict),
          ((cs.map (AIProcessor.process_chunk env source)).flatten).length =
            cs.flatten.length := by
        intro cs
        induction cs with
        | nil => rfl
        | cons c cs ih => simp [ih, process_chunk_length]
      simp only [he, Bool.not_true]
      rw [if_neg Bool.false_ne_true]
      rw [hlen, chunksOf_flatten bs hbs raws.length raws (le_refl _)]
    · simp [he]
  · intro chunk xs hg hlt
    unfold AIProcessor.process_chunk
    rw [hg]
    have hne : xs.length ≠ chunk.length := Nat.ne_of_lt hlt
    simp only [hne, if_false]
    rw [List.take_append_eq_append_take, List.take_of_length_le (le_of_lt hlt),
      List.take_replicate, Nat.min_eq_left (Nat.sub_le _ _)]
  · intro chunk xs hg hlt
    unfold AIProcessor.process_chunk
    rw [hg]
    have hne : xs.length ≠ chunk.length := (Nat.ne_of_lt hlt).symm
    simp only [hne, if_false]
    rw [List.take_append_eq_append_take,
      Nat.sub_eq_zero_of_le (le_of_lt hlt), List.take_zero, List.append_nil]

/-- C3 witness: with a stub returning a fixed 2-array, a 3-record batch at
batch size 2 keeps length 3; a 3-chunk is padded to [a, b, None]; a 1-chunk
is truncated to [a]. -/
theorem claim_C3_witness :
    (AIProcessor.process_batch envW "s" [[], [], []] 2).length = 3 ∧
    AIProcessor.process_chunk envW "s" [[], [], []] = [.str "a", .str "b", .null] ∧
    AIProcessor.process_chunk envW "s" [[]] = [.str "a"] :=
  ⟨(claim_C3 envW "s" [[], [], []] 2 (by decide)).1,
   (by simpa using (claim_C3 envW "s" [] 1 (by decide)).2.1 [[], [], []]
         [.str "a", .str "b"] rfl (by decide)),
   (by simpa using (claim_C3 envW "s" [] 1 (by decide)).2.2 [[]]
         [.str "a", .str "b"] rfl (by decide))⟩

/-- records for the C5 mismatch scenario -/
def rA : Dict := []

/-- second record of the C5 chunk -/
def rB : Dict := [("x", Value.null)]

/-- a gateway that answers the [rA, rB] batch prompt with a 1-element array
and every other (single-item) prompt with a structured object -/
def envC5 : Env :=
  { env0 with ai_enabled := true
              gemini := (fun p =>
                if p = AIProcessor.batch_prompt "s" [rA, rB] then .ok (.list [.str "a"])
                else .ok (.dict [("k", .null)])) }

/-- an always-failing gateway -/
def envErr : Env := { env0 with ai_enabled := true, gemini := (fun _ => .error ()) }

/-- C5 counterexample: on an array-length mismatch the chunk is NOT retried
item-by-item — the mismatched array is padded positionally, although the
per-item path would have produced structured objects for both records. -/
theorem claim_C5_cx :
    AIProcessor.process_chunk envC5 "s" [rA, rB] = [.str "a", .null] ∧
    AIProcessor.fallback_to_single envC5 "s" [rA, rB] =
      [.dict [("k", .null)], .dict [("k", .null)]] ∧
    [Value.str "a", Value.null] ≠ [Value.dict [("k", .null)], Value.dict [("k", .null)]] :=
  ⟨rfl, rfl, by simp⟩

/-- C5 (amended): a thrown/unparseable batch call falls through to the
per-item path, but an array-length mismatch is handled differently — by
positional pad/truncate, with no per-item retry. -/
theorem claim_C5 :
    (∀ (env : Env) (source : String) (chunk : List Dict),
        env.gemini (AIProcessor.batch_prompt source chunk) = .error () →
        AIProcessor.process_chunk env source chunk =
          AIProcessor.fallback_to_single env source chunk) ∧
    (∀ (env : Env) (source : String) (chunk : List Dict) (xs : List Value),
        env.gemini (AIProcessor.batch_prompt source chunk) = .ok (.list xs) →
        xs.length ≠ chunk.length →
        AIProcessor.process_chunk env source chunk =
          (xs ++ List.replicate chunk.length Value.null).take chunk.length) := by
  constructor
  · intro env source chunk hg
    unfold AIProcessor.process_chunk
    rw [hg]
  · intro env source chunk xs hg hne
    unfold AIProcessor.process_chunk
    rw [hg]
    simp only [hne, if_false]

/-- C5 witness: the failing-gateway case retries per item, and the concrete
mismatch case pads. -/
theorem claim_C5_witness :
    AIProcessor.process_chunk envErr "s" [rA] = AIProcessor.fallback_to_single envErr "s" [rA] ∧
    AIProcessor.process_chunk envC5 "s" [rA, rB] =
      ([Value.str "a"] ++ List.replicate 2 Value.null).take 2 :=
  ⟨claim_C5.1 envErr "s" [rA] rfl,
   claim_C5.2 envC5 "s" [rA, rB] [.str "a"] rfl (by decide)⟩

/-- a malformed remoteok record: its "type" field is an int, so
`(raw.get("type") or "FULLTIME").upper()` raises AttributeError inside the
mapping -/
def rawBad : Dict := [("position", .str "T"), ("description", .str "D"), ("type", .int 5)]

/-- C9: the fallback extractor never lets an internal error escape — any
error in its body yields None (the per-record Rejected outcome) — and the
malformed record rawBad does drive the body into an AttributeError. -/
theorem claim_C9 :
    (∀ (env : Env) (source : String) (raw : Dict) (e : PyErr),
        EnrichmentPipeline.fallback_body env source raw = .error e →
        EnrichmentPipeline.fallback_extract env source raw = none) ∧
    EnrichmentPipeline.fallback_body env0 "remoteok" rawBad = .error .attributeError := by
  constructor
  · intro env source raw e h
    unfold EnrichmentPipeline.fallback_extract
    rw [h]
  · rfl

/-- C9 witness: the malformed record is rejected as None, not raised. -/
theorem claim_C9_witness :
    EnrichmentPipeline.fallback_extract env0 "remoteok" rawBad = none :=
  claim_C9.1 env0 "remoteok" rawBad .attributeError claim_C9.2

/-- C1 counterexample: _finalize_job does NOT reject an empty title or an
empty description — both of the spec's concrete inputs come back as
accepted records, not null (the age default keeps posted_at = now, so
nothing else drops them). -/
theorem claim_C1_cx :
    is_accepted (EnrichmentPipeline.finalize_job env0 "remoteok" [("id", .str "1")]
      (.dict [("title", .str ""), ("description", .str "x")])) = true ∧
    is_accepted (EnrichmentPipeline.finalize_job env0 "remoteok" [("id", .str "1")]
      (.dict [("title", .str "Eng"), ("description", .str "")])) = true :=
  ⟨rfl, rfl⟩

/-- C1 (amended): the required-field rejection lives in the fallback
extractor, before finalization — whenever the per-source mapping yields an
empty title or description, _fallback_extract returns None; in particular
the spec's two concrete shapes are rejected there.  _finalize_job itself
performs no such check (see the counterexample). -/
theorem claim_C1 :
    (∀ (env : Env) (source : String) (raw : Dict) (ex : Dict),
        EnrichmentPipeline.source_extract env source raw = .ok (some ex) →
        (truthy (dgetV ex "title") = false ∨ truthy (dgetV ex "description") = false) →
        EnrichmentPipeline.fallback_extract env source raw = none) ∧
    EnrichmentPipeline.fallback_extract env0 "remoteok" [("description", .str "x")] = none ∧
    EnrichmentPipeline.fallback_extract env0 "remoteok" [("position", .str "Eng")] = none := by
  refine ⟨?_, rfl, rfl⟩
  intro env source raw ex hex hfalsy
  unfold EnrichmentPipeline.fallback_extract EnrichmentPipeline.fallback_body
  rw [hex, except_bind_ok]
  have hcond : (!truthy (dgetV ex "title") || !truthy (dgetV ex "description")) = true := by
    rcases hfalsy with hf | hf <;> simp [hf]
  simp only [hcond, if_true]
  rfl

/-- C1 witness: the general empty-field rejection applied to a hackernews
record with no title. -/
theorem claim_C1_witness :
    EnrichmentPipeline.fallback_extract env0 "hackernews" [("_raw_text", .str "d")] = none :=
  claim_C1.1 env0 "hackernews" [("_raw_text", .str "d")] _ rfl (Or.inl rfl)

/-- three remoteok records for the chunk-isolation scenario (tags present so
the fallback path need not run pattern extraction) -/
def r1 : Dict :=
  [("id", .str "1"), ("position", .str "P1"), ("description", .str "D"),
   ("tags", .list [.str "x"])]

/-- second record (its chunk's AI call fails) -/
def r2 : Dict :=
  [("id", .str "2"), ("position", .str "P2"), ("description", .str "D"),
   ("tags", .list [.str "x"])]

/-- third record -/
def r3 : Dict :=
  [("id", .str "3"), ("position", .str "P3"), ("description", .str "D"),
   ("tags", .list [.str "x"])]

/-- a structured object as the AI returns it -/
def aiJob : Value :=
  .dict [("title", .str "A"), ("description", .str "ad"), ("company", .str "C")]

/-- a gateway that raises for chunk [r2] — on its batch call and on the
per-item retry — and answers every other prompt with a 1-array -/
def env8a : Env :=
  { env0 with ai_enabled := true
              gemini := (fun p =>
                if p = AIProcessor.batch_prompt "remoteok" [r2] then .error ()
                else if p = AIProcessor.single_prompt "remoteok" r2 then .error ()
                else .ok (.list [aiJob])) }

/-- a gateway whose answer for chunk [r2] makes the finalizer itself raise
inside the chunk's unit of work (a bare string payload) -/
def env8b : Env :=
  { env0 with ai_enabled := true
              gemini := (fun p =>
                if p = AIProcessor.batch_prompt "remoteok" [r2] then .ok (.list [.str "bad"])
                else .ok (.list [aiJob])) }

/-- C8: chunk failures are isolated.  (1) In general, the orchestrator's
result is the concatenation of each chunk's independent unit of work, and
exactly the non-empty chunk results are delivered to on_batch_ready — no
chunk's outcome influences a sibling's.  (2) Concretely, with 3 chunks whose
second AI call raises, chunks 1 and 3 still produce finalized results, chunk
2's record is present via fallback extraction, and all three batches are
delivered.  (3) An exception inside a chunk's unit of work (here: the
finalizer raising on a bad payload) is caught per-chunk and degrades that
chunk to the fallback extractor. -/
theorem claim_C8 :
    (∀ (env : Env) (source : String) (raws : List Dict) (bs : Nat),
        EnrichmentPipeline.process_with_ai env source raws bs =
          (((chunksOf bs raws).map (EnrichmentPipeline.chunk_unit env source)).flatten,
           ((chunksOf bs raws).map (EnrichmentPipeline.chunk_unit env source)).filter
             (fun r => !r.isEmpty))) ∧
    (EnrichmentPipeline.chunk_try env8a "remoteok" [r1] =
        .ok (EnrichmentPipeline.chunk_unit env8a "remoteok" [r1]) ∧
      (EnrichmentPipeline.chunk_unit env8a "remoteok" [r1]).length = 1) ∧
    (EnrichmentPipeline.chunk_try env8a "remoteok" [r3] =
        .ok (EnrichmentPipeline.chunk_unit env8a "remoteok" [r3]) ∧
      (EnrichmentPipeline.chunk_unit env8a "remoteok" [r3]).length = 1) ∧
    (EnrichmentPipeline.chunk_unit env8a "remoteok" [r2] =
        [r2].filterMap (EnrichmentPipeline.fallback_extract env8a "remoteok") ∧
      (EnrichmentPipeline.chunk_unit env8a "remoteok" [r2]).length = 1) ∧
    ((EnrichmentPipeline.process_with_ai env8a "remoteok" [r1, r2, r3] 1).2 =
        [EnrichmentPipeline.chunk_unit env8a "remoteok" [r1],
         EnrichmentPipeline.chunk_unit env8a "remoteok" [r2],
         EnrichmentPipeline.chunk_unit env8a "remoteok" [r3]]) ∧
    (EnrichmentPipeline.chunk_try env8b "remoteok" [r2] = .error .attributeError ∧
      EnrichmentPipeline.chunk_unit env8b "remoteok" [r2] =
        [r2].filterMap (EnrichmentPipeline.fallback_extract env8b "remoteok") ∧
      (EnrichmentPipeline.chunk_unit env8b "remoteok" [r2]).length = 1) :=
  ⟨process_with_ai_spec, ⟨rfl, rfl⟩, ⟨rfl, rfl⟩, ⟨rfl, rfl⟩, rfl, ⟨rfl, rfl, rfl⟩⟩

/-- finalize_job on a dict payload, with the source-id derivation resolved:
the posted_at default, the age filter, and the finalize_rest tail -/
theorem finalize_job_unfold (env : Env) (source : String) (raw : Dict) (d : Dict)
    (sid : String)
    (hsid : EnrichmentPipeline.derive_source_id env source raw = .ok sid) :
    EnrichmentPipeline.finalize_job env source raw (.dict d) =
      (let job5 := EnrichmentPipeline.finalize_pre source raw sid d
       let job6 := if truthy (dgetV job5 "posted_at") then job5
                   else dset job5 "posted_at" (.dt true env.now)
       match dgetV job6 "posted_at" with
       | .dt true t =>
         if t < env.now - 15 * 86400 then pure none
         else EnrichmentPipeline.finalize_rest env raw job6
       | .dt false _ => .error .typeError
       | _ => EnrichmentPipeline.finalize_rest env raw job6) := by
  unfold EnrichmentPipeline.finalize_job
  rw [hsid]
  rfl

/-- C6: for a record with an absent or aware-datetime posted_at (and
string-or-absent title/company/description — the shapes every in-repo
extractor produces), the Finalizer defaults an absent posted_at to now and
drops the record exactly when its posted_at is older than the 15-day
window. -/
theorem claim_C6 (env : Env) (source : String) (raw : Dict) (d : Dict) (sid : String)
    (hsid : EnrichmentPipeline.derive_source_id env source raw = .ok sid)
    (ht : strField d "title") (hc : strField d "company")
    (hd : strField d "description") :
    (∀ t : Int, dgetV d "posted_at" = .dt true t →
        ((t < env.now - 15 * 86400 →
            EnrichmentPipeline.finalize_job env source raw (.dict d) = .ok none) ∧
         (¬ t < env.now - 15 * 86400 →
            ∃ j, EnrichmentPipeline.finalize_job env source raw (.dict d) = .ok (some j) ∧
              dgetV j "posted_at" = .dt true t))) ∧
    (truthy (dgetV d "posted_at") = false →
        ∃ j, EnrichmentPipeline.finalize_job env source raw (.dict d) = .ok (some j) ∧
          dgetV j "posted_at" = .dt true env.now) := by
  have hP : dgetV (EnrichmentPipeline.finalize_pre source raw sid d) "posted_at"
      = dgetV d "posted_at" :=
    dgetV_finalize_pre source raw sid d "posted_at"
      (by decide) (by decide) (by decide) (by decide) (by decide)
  have hT : strField (EnrichmentPipeline.finalize_pre source raw sid d) "title" :=
    strField_finalize_pre source raw sid d "title"
      (by decide) (by decide) (by decide) (by decide) (by decide) ht
  have hC : strField (EnrichmentPipeline.finalize_pre source raw sid d) "company" :=
    strField_finalize_pre source raw sid d "company"
      (by decide) (by decide) (by decide) (by decide) (by decide) hc
  have hD : strField (EnrichmentPipeline.finalize_pre source raw sid d) "description" :=
    strField_finalize_pre source raw sid d "description"
      (by decide) (by decide) (by decide) (by decide) (by decide) hd
  constructor
  · intro t hp
    have htr : truthy (dgetV (EnrichmentPipeline.finalize_pre source raw sid d)
        "posted_at") = true := by rw [hP, hp]; rfl
    rw [finalize_job_unfold env source raw d sid hsid]
    simp only [hP, hp, truthy, eq_self_iff_true, if_true]
    constructor
    · intro hlt
      rw [if_pos hlt]
      rfl
    · intro hge
      rw [if_neg hge]
      obtain ⟨j, hj, hdg⟩ :=
        finalize_rest_ok env raw (EnrichmentPipeline.finalize_pre source raw sid d) hT hC hD
      refine ⟨j, hj, ?_⟩
      have : dgetV j "posted_at"
          = dgetV (EnrichmentPipeline.finalize_pre source raw sid d) "posted_at" := by
        unfold dgetV
        rw [hdg]
      rw [this, hP, hp]
  · intro htr0
    have htr : truthy (dgetV (EnrichmentPipeline.finalize_pre source raw sid d)
        "posted_at") = false := by rw [hP]; exact htr0
    rw [finalize_job_unfold env source raw d sid hsid]
    simp only [htr, Bool.false_eq_true, if_false, dgetV_dset_self]
    rw [if_neg (by omega)]
    obtain ⟨j, hj, hdg⟩ := finalize_rest_ok env raw
      (dset (EnrichmentPipeline.finalize_pre source raw sid d) "posted_at" (.dt true env.now))
      (strField_dset_ne _ _ _ _ (by decide) hT)
      (strField_dset_ne _ _ _ _ (by decide) hC)
      (strField_dset_ne _ _ _ _ (by decide) hD)
    refine ⟨j, hj, ?_⟩
    unfold dgetV
    rw [hdg, dget_dset_self]
    rfl

/-- C6 witness: at the fixed clock, a record posted 20 days ago is dropped
and a record posted 1 day ago is kept (with its posted_at intact). -/
theorem claim_C6_witness :
    EnrichmentPipeline.finalize_job env0 "remoteok" [("id", .str "1")]
      (.dict [("title", .str "T"), ("description", .str "D"),
              ("posted_at", .dt true (1700000000 - 20 * 86400))]) = .ok none ∧
    is_accepted (EnrichmentPipeline.finalize_job env0 "remoteok" [("id", .str "1")]
      (.dict [("title", .str "T"), ("description", .str "D"),
              ("posted_at", .dt true (1700000000 - 1 * 86400))])) = true := by
  constructor
  · exact ((claim_C6 env0 "remoteok" [("id", .str "1")]
      [("title", .str "T"), ("description", .str "D"),
       ("posted_at", .dt true (1700000000 - 20 * 86400))] "1" rfl
      (Or.inr ⟨"T", rfl⟩) (Or.inl rfl) (Or.inr ⟨"D", rfl⟩)).1
      (1700000000 - 20 * 86400) rfl).1 (by decide)
  · obtain ⟨j, hj, _⟩ := ((claim_C6 env0 "remoteok" [("id", .str "1")]
      [("title", .str "T"), ("description", .str "D"),
       ("posted_at", .dt true (1700000000 - 1 * 86400))] "1" rfl
      (Or.inr ⟨"T", rfl⟩) (Or.inl rfl) (Or.inr ⟨"D", rfl⟩)).1
      (1700000000 - 1 * 86400) rfl).2 (by decide)
    rw [hj]
    rfl

/-- C10 (implicit): the age filter applies only to datetime posted_at
values — a record whose posted_at is a non-empty date string is never
dropped for age, however old the encoded date, and the string passes
through to the finalized record intact. -/
theorem claim_C10 (env : Env) (source : String) (raw : Dict) (d : Dict) (sid : String)
    (hsid : EnrichmentPipeline.derive_source_id env source raw = .ok sid)
    (ht : strField d "title") (hc : strField d "company")
    (hd : strField d "description") (s : String)
    (hp : dgetV d "posted_at" = .str s) (hs : s ≠ "") :
    ∃ j, EnrichmentPipeline.finalize_job env source raw (.dict d) = .ok (some j) ∧
      dgetV j "posted_at" = .str s := by
  have hP : dgetV (EnrichmentPipeline.finalize_pre source raw sid d) "posted_at"
      = dgetV d "posted_at" :=
    dgetV_finalize_pre source raw sid d "posted_at"
      (by decide) (by decide) (by decide) (by decide) (by decide)
  have hT : strField (EnrichmentPipeline.finalize_pre source raw sid d) "title" :=
    strField_finalize_pre source raw sid d "title"
      (by decide) (by decide) (by decide) (by decide) (by decide) ht
  have hC : strField (EnrichmentPipeline.finalize_pre source raw sid d) "company" :=
    strField_finalize_pre source raw sid d "company"
      (by decide) (by decide) (by decide) (by decide) (by decide) hc
  have hD : strField (EnrichmentPipeline.finalize_pre source raw sid d) "description" :=
    strField_finalize_pre source raw sid d "description"
      (by decide) (by decide) (by decide) (by decide) (by decide) hd
  have htr : truthy (dgetV (EnrichmentPipeline.finalize_pre source raw sid d)
      "posted_at") = true := by
    rw [hP, hp]
    simpa [truthy] using hs
  rw [finalize_job_unfold env source raw d sid hsid]
  simp only [htr, eq_self_iff_true, if_true]
  simp only [hP, hp]
  obtain ⟨j, hj, hdg⟩ :=
    finalize_rest_ok env raw (EnrichmentPipeline.finalize_pre source raw sid d) hT hC hD
  refine ⟨j, hj, ?_⟩
  have : dgetV j "posted_at"
      = dgetV (EnrichmentPipeline.finalize_pre source raw sid d) "posted_at" := by
    unfold dgetV
    rw [hdg]
  rw [this, hP, hp]

/-- C10 witness: a record carrying the ancient date STRING "2020-01-01" —
far outside the 15-day window at the fixed clock — is accepted, not
dropped. -/
theorem claim_C10_witness :
    is_accepted (EnrichmentPipeline.finalize_job env0 "remoteok" [("id", .str "1")]
      (.dict [("title", .str "T"), ("description", .str "D"),
              ("posted_at", .str "2020-01-01")])) = true := by
  obtain ⟨j, hj, _⟩ := claim_C10 env0 "remoteok" [("id", .str "1")]
    [("title", .str "T"), ("description", .str "D"), ("posted_at", .str "2020-01-01")]
    "1" rfl (Or.inr ⟨"T", rfl⟩) (Or.inl rfl) (Or.inr ⟨"D", rfl⟩)
    "2020-01-01" rfl (by decide)
  rw [hj]
  rfl

end JobsAI
